import Mathlib

/-!
Verification of the structural-safety analysis pipeline of the
rocket-simulator repository: thin-wall stress formulas and Barlow burst
pressure (`burst_calculator.py`), the Lamé thick-wall elasticity solver
(`thick_wall_solver.py`), the stress-concentration model
(`stress_concentrations.py`), the dynamic failure tracker
(`ode_solver.py`), and the end-to-end orchestrator
(`full_simulation.py`).

Numbers are modelled as real numbers; Python `raise` paths become
`Except String`; Python `warnings.warn` emissions become explicit
`SimWarning` lists returned alongside values; the SciPy interpolants and
the SciPy event-detection result (external library outputs) are passed
in as oracle parameters.
-/

namespace RocketSim

open scoped Classical

/-- Python `str.lower()` over the source's ASCII names, implemented on
the underlying character list so that concrete instances evaluate. -/
def py_lower (s : String) : String := ⟨s.data.map Char.toLower⟩

/-- Python `str.strip()` (leading and trailing whitespace removal) on the
underlying character list. -/
def py_strip (s : String) : String :=
  ⟨((s.data.dropWhile Char.isWhitespace).reverse.dropWhile Char.isWhitespace).reverse⟩

/-- Python `str.replace(a, b)` for the single-character patterns used by
the source, on the underlying character list. -/
def py_replace_char (s : String) (a b : Char) : String :=
  ⟨s.data.map (fun c => if c = a then b else c)⟩

/-- Warning kinds emitted by the analysis code. The constructor
`extrapolationBeyondDomain` names the specification's numerical-warning
category for interpolant queries outside the input series' domain, so
that its presence or absence in an emitted warning list can be stated. -/
inductive SimWarning where
  | marginalThinWall
  | lengthMissing
  | flatCapAdvisory
  | extrapolationBeyondDomain
deriving DecidableEq

/-- Cylindrical pressure vessel geometry (`burst_calculator.VesselGeometry`). -/
structure VesselGeometry where
  inner_diameter : ℝ
  wall_thickness : ℝ
  length : Option ℝ

/-- Material property record (`materials.MaterialProperties`). The Poisson
ratio field is named `poisson`. -/
structure MaterialProperties where
  name : String
  yield_strength : ℝ
  tensile_strength : ℝ
  elastic_modulus : ℝ
  poisson : ℝ
  density : ℝ
  max_temperature : ℝ
  source : String

/-- Stress state in a pressure vessel (`burst_calculator.StressState`). -/
structure StressState where
  hoop_stress : ℝ
  axial_stress : ℝ
  radial_stress : ℝ
  von_mises_stress : ℝ

/-- Error message raised when the thin-wall assumption is violated. -/
def thin_wall_error : String :=
  "Thin-wall assumption violated: use thick-wall theory (Lame equations) instead."

/-- Thin-wall applicability check (`validate_thin_wall_assumption`):
raises for thickness/diameter strictly above the threshold, warns for a
value strictly above 0.05, and otherwise returns silently. -/
noncomputable def validate_thin_wall_assumption (geometry : VesselGeometry)
    (threshold : ℝ) : Except String (List SimWarning) :=
  let frac := geometry.wall_thickness / geometry.inner_diameter
  if frac > threshold then
    .error thin_wall_error
  else if frac > 0.05 then
    .ok [SimWarning.marginalThinWall]
  else
    .ok []

/-- Hoop stress P·D/(2t) after thin-wall validation (`calculate_hoop_stress`). -/
noncomputable def calculate_hoop_stress (pressure : ℝ) (geometry : VesselGeometry) :
    Except String (List SimWarning × ℝ) := do
  let w ← validate_thin_wall_assumption geometry 0.1
  pure (w, pressure * geometry.inner_diameter / (2 * geometry.wall_thickness))

/-- Axial stress P·D/(4t) after thin-wall validation (`calculate_axial_stress`). -/
noncomputable def calculate_axial_stress (pressure : ℝ) (geometry : VesselGeometry) :
    Except String (List SimWarning × ℝ) := do
  let w ← validate_thin_wall_assumption geometry 0.1
  pure (w, pressure * geometry.inner_diameter / (4 * geometry.wall_thickness))

/-- Von Mises equivalent stress of three principal stresses
(`calculate_von_mises_stress`). -/
noncomputable def calculate_von_mises_stress (hoop_stress axial_stress radial_stress : ℝ) : ℝ :=
  Real.sqrt (((hoop_stress - axial_stress) ^ 2 +
    (axial_stress - radial_stress) ^ 2 +
    (radial_stress - hoop_stress) ^ 2) / 2)

/-- Complete thin-wall stress state (`calculate_stress_state`); the radial
component is zero under the thin-wall assumption. -/
noncomputable def calculate_stress_state (pressure : ℝ) (geometry : VesselGeometry) :
    Except String (List SimWarning × StressState) := do
  let (w1, sigma_hoop) ← calculate_hoop_stress pressure geometry
  let (w2, sigma_axial) ← calculate_axial_stress pressure geometry
  let sigma_radial : ℝ := 0
  pure (w1 ++ w2,
    { hoop_stress := sigma_hoop
      axial_stress := sigma_axial
      radial_stress := sigma_radial
      von_mises_stress := calculate_von_mises_stress sigma_hoop sigma_axial sigma_radial })

/-- Barlow burst pressure 2·σ_allow·t/D divided by the safety factor
(`calculate_burst_pressure`). -/
noncomputable def calculate_burst_pressure (geometry : VesselGeometry)
    (material : MaterialProperties) (use_yield : Bool) (safety_factor : ℝ) :
    Except String (List SimWarning × ℝ) := do
  let w ← validate_thin_wall_assumption geometry 0.1
  let sigma_allow := if use_yield then material.yield_strength else material.tensile_strength
  pure (w, 2 * sigma_allow * geometry.wall_thickness / geometry.inner_diameter / safety_factor)

/-- Safety factor σ_allow / σ_vm, infinite when the von Mises stress is not
positive (`calculate_safety_factor`); an unknown criterion string raises. -/
noncomputable def calculate_safety_factor (pressure : ℝ) (geometry : VesselGeometry)
    (material : MaterialProperties) (criterion : String) :
    Except String (List SimWarning × EReal) := do
  let (w, stress_state) ← calculate_stress_state pressure geometry
  let sigma_actual := stress_state.von_mises_stress
  let sigma_allow ←
    if py_lower criterion = "yield" then Except.ok material.yield_strength
    else if py_lower criterion = "ultimate" then Except.ok material.tensile_strength
    else Except.error "Unknown criterion. Use yield or ultimate."
  pure (w, if sigma_actual > 0 then ((sigma_allow / sigma_actual : ℝ) : EReal) else (⊤ : EReal))

/-- Failure pressure: Barlow burst pressure at safety factor 1 with the
allowable stress chosen from the criterion (`predict_failure_pressure`). -/
noncomputable def predict_failure_pressure (geometry : VesselGeometry)
    (material : MaterialProperties) (criterion : String) :
    Except String (List SimWarning × ℝ) :=
  calculate_burst_pressure geometry material (py_lower criterion == "yield") 1

/-- Categorical end-cap factor table of `calculate_end_cap_stress_factor`. -/
def cap_factors : List (String × ℝ) :=
  [("hemispherical", 1.0), ("elliptical", 1.5), ("torispherical", 1.8),
   ("conical", 1.5), ("flat", 2.5)]

/-- End-cap stress concentration factor (`calculate_end_cap_stress_factor`):
table lookup on the lower-cased cap type, raising on an unknown name and
emitting an advisory warning for a flat cap. -/
def calculate_end_cap_stress_factor (_geometry : VesselGeometry) (cap_type : String) :
    Except String (List SimWarning × ℝ) := do
  let cap_type_lower := py_lower cap_type
  match cap_factors.find? (fun p => p.1 == cap_type_lower) with
  | none => .error "Unknown cap type. Available: hemispherical, elliptical, torispherical, conical, flat"
  | some p =>
    .ok (if cap_type_lower == "flat" then [SimWarning.flatCapAdvisory] else [], p.2)

/-- Thread-root stress concentration factor (`calculate_thread_stress_factor`):
defaults depth = t/2 and root radius = depth/4, Peterson formula
K = 1 + 2·√(h/r) (4.0 for a non-positive radius), clamped to [2.0, 4.5]. -/
noncomputable def calculate_thread_stress_factor (geometry : VesselGeometry)
    (thread_depth : Option ℝ) (thread_radius : Option ℝ) : ℝ :=
  let h := thread_depth.getD (geometry.wall_thickness / 2)
  let r := thread_radius.getD (h / 4)
  let K_t : ℝ := if r > 0 then 1 + 2 * Real.sqrt (h / r) else 4.0
  min (max K_t 2.0) 4.5

/-- Diameter-transition stress concentration factor
(`calculate_transition_radius_factor`): Peterson chart approximation
scaled by the diameter ratio and clamped to [1.0, 3.5]. -/
noncomputable def calculate_transition_radius_factor (major_diameter minor_diameter
    fillet_radius : ℝ) : ℝ :=
  let d_frac := minor_diameter / major_diameter
  let r_frac := fillet_radius / minor_diameter
  let K_t : ℝ := if r_frac > 0 then 1 + 0.5 / Real.sqrt r_frac else 3.0
  let K_t := K_t * (1 + (1 - d_frac))
  min (max K_t 1.0) 3.5

/-- Result dictionary of `calculate_maximum_stress`. -/
structure StressConcentrationResult where
  sigma_nominal : ℝ
  K_cap : ℝ
  K_thread : Option ℝ
  K_transition : Option ℝ
  K_total : ℝ
  sigma_max : ℝ
  location : String

/-- Combined stress-concentration analysis (`calculate_maximum_stress`):
nominal thin-wall hoop stress, per-feature factors (1.0 for a disabled
feature), the combined factor as the maximum of the three, the critical
location as the first feature attaining that maximum in the order
cap, thread, transition (mirroring Python `max` with a key function,
which keeps the earliest maximal element), and the maximum stress as
combined factor times nominal stress. -/
noncomputable def calculate_maximum_stress (pressure : ℝ) (geometry : VesselGeometry)
    (_material : MaterialProperties) (cap_type : String)
    (include_thread : Bool) (include_transition : Bool) :
    Except String (List SimWarning × StressConcentrationResult) := do
  let (w0, stress_state) ← calculate_stress_state pressure geometry
  let sigma_nominal := stress_state.hoop_stress
  let (w1, K_cap) ← calculate_end_cap_stress_factor geometry cap_type
  let K_thread : ℝ :=
    if include_thread then calculate_thread_stress_factor geometry none none else 1.0
  let K_transition : ℝ :=
    if include_transition then
      calculate_transition_radius_factor geometry.inner_diameter 0.028 0.005
    else 1.0
  let max_K := max (max K_cap K_thread) K_transition
  let location : String :=
    if K_transition > max K_cap K_thread then "Neck transition"
    else if K_thread > K_cap then "Thread root"
    else "End cap"
  let sigma_max := max_K * sigma_nominal
  pure (w0 ++ w1,
    { sigma_nominal := sigma_nominal
      K_cap := K_cap
      K_thread := if include_thread then some K_thread else none
      K_transition := if include_transition then some K_transition else none
      K_total := max_K
      sigma_max := sigma_max
      location := location })

/-- Failure-location ranking (`estimate_failure_location`) over end cap,
thread root and cylindrical body baseline. -/
noncomputable def estimate_failure_location (_pressure : ℝ) (geometry : VesselGeometry)
    (cap_type : String) : Except String (List SimWarning × String) := do
  let (w, K_cap) ← calculate_end_cap_stress_factor geometry cap_type
  let K_thread := calculate_thread_stress_factor geometry none none
  let K_body : ℝ := 1.0
  let max_K := max (max K_cap K_thread) K_body
  pure (w,
    if max_K = K_thread then "Thread root (thread stress concentration)"
    else if max_K = K_cap ∧ K_cap > 1.5 then "End cap (stress concentration)"
    else "Cylindrical body (uniform stress)")

/-- Evenly spaced samples including both endpoints, mirroring
`numpy.linspace(start, stop, num)`. -/
noncomputable def linspace (start stop : ℝ) (num : ℕ) : List ℝ :=
  (List.range num).map (fun i : ℕ => start + (stop - start) * (i : ℝ) / ((num - 1 : ℕ) : ℝ))

/-- Maximum of a list of reals, head-seeded like `numpy.max` on a
non-empty array (0 on the empty list, which `numpy` rejects). -/
def listMaxD : List ℝ → ℝ
  | [] => 0
  | x :: xs => xs.foldl max x

/-- Minimum of a list of extended reals, head-seeded like `numpy.min` on a
non-empty array (⊤ on the empty list, which `numpy` rejects). -/
noncomputable def listMinD : List EReal → EReal
  | [] => ⊤
  | x :: xs => xs.foldl min x

/-- Result record of `solve_lame_equations` (`ThickWallResult`). -/
structure ThickWallResult where
  r : List ℝ
  sigma_r : List ℝ
  sigma_theta : List ℝ
  sigma_z : List ℝ
  sigma_vm : List ℝ
  u_r : List ℝ
  epsilon_r : List ℝ
  epsilon_theta : List ℝ
  epsilon_z : List ℝ

/-- Exact Lamé solution for a thick-wall cylinder (`solve_lame_equations`):
A = (P_i·r_i² − P_o·r_o²)/(r_o²−r_i²), B = (P_i−P_o)·r_i²·r_o²/(r_o²−r_i²),
σ_r = A − B/r², σ_θ = A + B/r², constant closed-end σ_z, von Mises stress
at every sample, and displacement/strain fields from Hooke's law when a
material is supplied (all zero otherwise). -/
noncomputable def solve_lame_equations (inner_radius outer_radius internal_pressure
    external_pressure : ℝ) (material : Option MaterialProperties) (n_points : ℕ) :
    ThickWallResult :=
  let r := linspace inner_radius outer_radius n_points
  let r_i := inner_radius
  let r_o := outer_radius
  let P_i := internal_pressure
  let P_o := external_pressure
  let k := r_o ^ 2 - r_i ^ 2
  let A := (P_i * r_i ^ 2 - P_o * r_o ^ 2) / k
  let B := (P_i - P_o) * r_i ^ 2 * r_o ^ 2 / k
  let sigma_r := r.map (fun x => A - B / x ^ 2)
  let sigma_theta := r.map (fun x => A + B / x ^ 2)
  let sigma_z : ℝ := P_i * r_i ^ 2 / (r_o ^ 2 - r_i ^ 2)
  let sigma_z_array := r.map (fun _ => sigma_z)
  let sigma_vm := r.map (fun x =>
    Real.sqrt ((((A - B / x ^ 2) - (A + B / x ^ 2)) ^ 2 +
      ((A + B / x ^ 2) - sigma_z) ^ 2 +
      (sigma_z - (A - B / x ^ 2)) ^ 2) / 2))
  let u_r :=
    match material with
    | some m =>
      r.map (fun x =>
        (1 / m.elastic_modulus) * ((1 - m.poisson) * A * x + (1 + m.poisson) * B / x))
    | none => r.map (fun _ => 0)
  let epsilon_r :=
    match material with
    | some m =>
      r.map (fun x =>
        (1 / m.elastic_modulus) * ((A - B / x ^ 2) - m.poisson * ((A + B / x ^ 2) + sigma_z)))
    | none => r.map (fun _ => 0)
  let epsilon_theta :=
    match material with
    | some m =>
      r.map (fun x =>
        (1 / m.elastic_modulus) * ((A + B / x ^ 2) - m.poisson * ((A - B / x ^ 2) + sigma_z)))
    | none => r.map (fun _ => 0)
  let epsilon_z :=
    match material with
    | some m =>
      r.map (fun x =>
        (1 / m.elastic_modulus) * (sigma_z - m.poisson * ((A - B / x ^ 2) + (A + B / x ^ 2))))
    | none => r.map (fun _ => 0)
  { r := r
    sigma_r := sigma_r
    sigma_theta := sigma_theta
    sigma_z := sigma_z_array
    sigma_vm := sigma_vm
    u_r := u_r
    epsilon_r := epsilon_r
    epsilon_theta := epsilon_theta
    epsilon_z := epsilon_z }

/-- Validation flags of `validate_lame_solution`. -/
structure LameValidation where
  bc_inner : Bool
  bc_outer : Bool
  hoop_max_inner : Bool
  hoop_positive : Bool

/-- The `numpy.isclose(a, b, rtol)` predicate with the default absolute
tolerance 1e-8: |a − b| ≤ atol + rtol·|b|. -/
noncomputable def npIsClose (a b rtol : ℝ) : Bool :=
  decide (|a - b| ≤ 1e-8 + rtol * |b|)

/-- Boundary-condition and monotonicity checks of `validate_lame_solution`:
σ_r at the first sample close to −P_i, σ_r at the last sample close to
−P_o (relative tolerance 1e-6), hoop stress maximal at the inner surface
when P_i > P_o, and hoop stress everywhere positive when P_i > 0, P_o = 0. -/
noncomputable def validate_lame_solution (result : ThickWallResult)
    (inner_pressure outer_pressure : ℝ) : LameValidation :=
  { bc_inner := npIsClose (result.sigma_r.headD 0) (-inner_pressure) 1e-6
    bc_outer := npIsClose (result.sigma_r.getLastD 0) (-outer_pressure) 1e-6
    hoop_max_inner :=
      if inner_pressure > outer_pressure then
        decide (∀ x ∈ result.sigma_theta, x ≤ result.sigma_theta.headD 0)
      else true
    hoop_positive :=
      if inner_pressure > 0 ∧ outer_pressure = 0 then
        decide (∀ x ∈ result.sigma_theta, 0 < x)
      else true }

/-- Comparison record of `compare_thick_vs_thin_wall`. -/
structure ThinThickComparison where
  thickness_over_diameter : ℝ
  thin_wall_valid : Bool
  hoop_stress_thin : ℝ
  hoop_stress_thick_max : ℝ
  hoop_stress_thick_inner : ℝ
  error_percent : ℝ

/-- Thick-versus-thin-wall comparison (`compare_thick_vs_thin_wall`):
thickness ratio, validity flag (ratio < 0.1), both hoop stresses, and the
relative error of the thin-wall value against the thick-wall maximum.
The Lamé call uses the source's default 50 sample points. -/
noncomputable def compare_thick_vs_thin_wall (geometry : VesselGeometry)
    (pressure : ℝ) (material : MaterialProperties) :
    Except String (List SimWarning × ThinThickComparison) := do
  let r_i := geometry.inner_diameter / 2
  let t := geometry.wall_thickness
  let r_o := r_i + t
  let frac := t / geometry.inner_diameter
  let (w, sigma_thin) ← calculate_hoop_stress pressure geometry
  let result := solve_lame_equations r_i r_o pressure 0 (some material) 50
  let sigma_thick_max := listMaxD result.sigma_theta
  pure (w,
    { thickness_over_diameter := frac
      thin_wall_valid := decide (frac < 0.1)
      hoop_stress_thin := sigma_thin
      hoop_stress_thick_max := sigma_thick_max
      hoop_stress_thick_inner := result.sigma_theta.headD 0
      error_percent := |sigma_thick_max - sigma_thin| / sigma_thick_max * 100 })

/-- Thick-wall burst pressure from the Lamé inner-surface hoop maximum
(`calculate_thick_wall_burst_pressure`). -/
noncomputable def calculate_thick_wall_burst_pressure (geometry : VesselGeometry)
    (material : MaterialProperties) (use_yield : Bool) : ℝ :=
  let r_i := geometry.inner_diameter / 2
  let r_o := r_i + geometry.wall_thickness
  let sigma_allow := if use_yield then material.yield_strength else material.tensile_strength
  sigma_allow * (r_o ^ 2 - r_i ^ 2) / (r_o ^ 2 + r_i ^ 2)

/-- Output container of the external Module 1 combustion simulator
(`cantera_wrapper.CombustionResult`); the combustion computation itself
is an external collaborator, so results of this shape are inputs here. -/
structure CombustionResult where
  time : List ℝ
  pressure : List ℝ
  temperature : List ℝ
  peak_pressure : ℝ
  max_dPdt : ℝ
  success : Bool
  message : String

/-- Complete system time history (`ode_solver.SystemState`). -/
structure SystemState where
  time : List ℝ
  pressure : List ℝ
  temperature : List ℝ
  volume : List ℝ
  hoop_stress : List ℝ
  axial_stress : List ℝ
  von_mises_stress : List ℝ
  safety_factor : List EReal
  strain_hoop : List ℝ
  failed : Bool
  failure_time : Option ℝ
  failure_mode : Option String

/-- Sequential evaluation of a fallible computation over a list,
propagating the first error: the shape of the Python result loop in
`simulate_system_dynamics`, which appends per-sample values and lets any
exception abort the whole call. -/
def exceptMapList {α β : Type} (f : α → Except String β) : List α → Except String (List β)
  | [] => .ok []
  | a :: l => do
    let b ← f a
    let bs ← exceptMapList f l
    pure (b :: bs)

/-- Per-sample record assembled inside the result loop of
`simulate_system_dynamics`. -/
structure DynSample where
  t : ℝ
  P : ℝ
  T : ℝ
  V : ℝ
  stress : StressState
  SF : EReal
  strain : ℝ
  warn : List SimWarning

/-- One iteration of the result loop of `simulate_system_dynamics`: query
the interpolants at time t, compute the stress state, safety factor,
elastic hoop strain and (optionally) the deformed volume. -/
noncomputable def dynamics_sample (P_interp T_interp : ℝ → ℝ)
    (geometry : VesselGeometry) (material : MaterialProperties)
    (failure_criterion : String) (include_deformation : Bool) (V0 : ℝ) (t : ℝ) :
    Except String DynSample := do
  let P := P_interp t
  let T := T_interp t
  let (w1, stress_state) ← calculate_stress_state P geometry
  let (w2, SF) ← calculate_safety_factor P geometry material failure_criterion
  let epsilon_hoop := stress_state.hoop_stress / material.elastic_modulus
  let V :=
    if include_deformation then
      V0 * (1 + (2 * epsilon_hoop + stress_state.axial_stress / material.elastic_modulus))
    else V0
  pure { t := t, P := P, T := T, V := V, stress := stress_state, SF := SF,
         strain := epsilon_hoop, warn := w1 ++ w2 }

/-- The solver evaluation grid of `simulate_system_dynamics`:
`t_eval = linspace(0, end_t, int(end_t / max_step))` with the end time
defaulting to the last time of the combustion series. -/
noncomputable def tracker_grid (combustion_result : CombustionResult)
    (end_time : Option ℝ) (max_step : ℝ) : List ℝ :=
  linspace 0 (end_time.getD (combustion_result.time.getLastD 0))
    (Nat.floor (end_time.getD (combustion_result.time.getLastD 0) / max_step))

/-- The retained sample times of `simulate_system_dynamics`: when the
terminal failure event fired at tstar, the solver keeps the grid points
up to tstar and the code appends tstar itself; otherwise the whole grid. -/
noncomputable def tracker_time_array (combustion_result : CombustionResult)
    (end_time : Option ℝ) (max_step : ℝ) (event_time : Option ℝ) : List ℝ :=
  match event_time with
  | some tstar =>
    (tracker_grid combustion_result end_time max_step).filter
      (fun t => decide (t ≤ tstar)) ++ [tstar]
  | none => tracker_grid combustion_result end_time max_step

/-- Dynamic failure tracker (`simulate_system_dynamics`). The SciPy cubic
interpolants of the combustion pressure and temperature series (built
with extrapolation allowed and bounds errors disabled) and the event
time reported by the terminal, downward-directed failure event of
`solve_ivp` are outputs of the external numerical library and are passed
here as the oracle parameters `P_interp`, `T_interp` and `event_time`.
The tracker builds the evaluation grid, keeps the solver samples up to
the event time plus the event time itself when an event fired, records
pressure, temperature, stresses, safety factor and elastic hoop strain
at every retained sample, and marks failure with the fixed mode string
"Yield exceeded". -/
noncomputable def simulate_system_dynamics (combustion_result : CombustionResult)
    (geometry : VesselGeometry) (material : MaterialProperties)
    (end_time : Option ℝ) (max_step : ℝ) (failure_criterion : String)
    (include_deformation : Bool) (P_interp T_interp : ℝ → ℝ)
    (event_time : Option ℝ) :
    Except String (List SimWarning × SystemState) := do
  let w_len : List SimWarning :=
    if geometry.length = none then [SimWarning.lengthMissing] else []
  let V0 := geometry.inner_diameter ^ 2 * Real.pi / 4 * (geometry.length.getD 0.3)
  let samples ← exceptMapList
    (dynamics_sample P_interp T_interp geometry material failure_criterion
      include_deformation V0)
    (tracker_time_array combustion_result end_time max_step event_time)
  pure (w_len ++ (samples.map (fun s => s.warn)).flatten,
    { time := samples.map (fun s => s.t)
      pressure := samples.map (fun s => s.P)
      temperature := samples.map (fun s => s.T)
      volume := samples.map (fun s => s.V)
      hoop_stress := samples.map (fun s => s.stress.hoop_stress)
      axial_stress := samples.map (fun s => s.stress.axial_stress)
      von_mises_stress := samples.map (fun s => s.stress.von_mises_stress)
      safety_factor := samples.map (fun s => s.SF)
      strain_hoop := samples.map (fun s => s.strain)
      failed := event_time.isSome
      failure_time := event_time
      failure_mode := if event_time.isSome then some "Yield exceeded" else none })

/-- Catalog entry for PET (`materials.MATERIALS["PET"]`). -/
noncomputable def PET : MaterialProperties :=
  { name := "Polyethylene Terephthalate (PET)", yield_strength := 55e6,
    tensile_strength := 70e6, elastic_modulus := 2.8e9, poisson := 0.38,
    density := 1380.0, max_temperature := 343.15,
    source := "Osswald et al., Materials Science of Polymers (2012)" }

/-- Catalog entry for HDPE (`materials.MATERIALS["HDPE"]`). -/
noncomputable def HDPE : MaterialProperties :=
  { name := "High-Density Polyethylene (HDPE)", yield_strength := 26e6,
    tensile_strength := 37e6, elastic_modulus := 1.1e9, poisson := 0.42,
    density := 960.0, max_temperature := 353.15,
    source := "ASTM D638 standard testing data" }

/-- Catalog entry for polypropylene (`materials.MATERIALS["PP"]`). -/
noncomputable def PP : MaterialProperties :=
  { name := "Polypropylene (PP)", yield_strength := 32e6,
    tensile_strength := 38e6, elastic_modulus := 1.6e9, poisson := 0.40,
    density := 905.0, max_temperature := 373.15,
    source := "MatWeb polymer database" }

/-- Catalog entry for aluminum 6061-T6. -/
noncomputable def Aluminum_6061_T6 : MaterialProperties :=
  { name := "Aluminum 6061-T6", yield_strength := 276e6,
    tensile_strength := 310e6, elastic_modulus := 68.9e9, poisson := 0.33,
    density := 2700.0, max_temperature := 473.15,
    source := "ASM Metals Handbook" }

/-- Catalog entry for stainless steel 304. -/
noncomputable def Steel_304 : MaterialProperties :=
  { name := "Stainless Steel 304", yield_strength := 215e6,
    tensile_strength := 505e6, elastic_modulus := 193e9, poisson := 0.29,
    density := 8000.0, max_temperature := 923.15,
    source := "ASTM A240 specification" }

/-- Material catalog (`materials.MATERIALS`), in source insertion order. -/
noncomputable def MATERIALS : List (String × MaterialProperties) :=
  [("PET", PET), ("HDPE", HDPE), ("PP", PP),
   ("Aluminum_6061_T6", Aluminum_6061_T6), ("Steel_304", Steel_304)]

/-- Catalog lookup (`materials.get_material`): normalize the name, try an
exact key match, then a case-insensitive match, then raise. -/
noncomputable def get_material (name : String) : Except String MaterialProperties :=
  let normalized := py_replace_char (py_replace_char (py_strip name) ' ' '_') '-' '_'
  match MATERIALS.find? (fun p => p.1 == normalized) with
  | some p => .ok p.2
  | none =>
    match MATERIALS.find? (fun p => py_lower p.1 == py_lower normalized) with
    | some p => .ok p.2
    | none => .error "Material not found in database."

/-- Configuration of the Module 1 + Module 2 pipeline
(`system_integrator.SimulationConfig`). -/
structure SimulationConfig where
  vessel_volume : ℝ
  fuel_oxidizer : ℝ
  initial_temperature : ℝ
  initial_pressure : ℝ
  vessel_diameter : ℝ
  vessel_thickness : ℝ
  vessel_length : ℝ
  vessel_material : String
  combustion_time : ℝ
  system_time : Option ℝ
  max_step : ℝ
  failure_criterion : String

/-- Combustion-to-dynamics pipeline (`system_integrator.run_full_simulation`):
look up the material, compute the theoretical burst pressure (validating
the geometry), then run the failure tracker over the combustion series.
The combustion result and the library oracles are inputs. -/
noncomputable def run_full_simulation (config : SimulationConfig)
    (combustion_result : CombustionResult) (P_interp T_interp : ℝ → ℝ)
    (event_time : Option ℝ) :
    Except String (List SimWarning × CombustionResult × SystemState) := do
  let geometry : VesselGeometry :=
    { inner_diameter := config.vessel_diameter
      wall_thickness := config.vessel_thickness
      length := some config.vessel_length }
  let material ← get_material config.vessel_material
  let (wb, _P_burst) ← predict_failure_pressure geometry material config.failure_criterion
  let system_time := config.system_time.getD config.combustion_time
  let (ws, system_state) ← simulate_system_dynamics combustion_result geometry material
    (some system_time) config.max_step config.failure_criterion false
    P_interp T_interp event_time
  pure (wb ++ ws, combustion_result, system_state)

/-- End-to-end configuration (`full_simulation.FullSimulationConfig`). -/
structure FullSimulationConfig where
  volume : ℝ
  fuel_oxidizer : ℝ
  initial_temperature : ℝ
  initial_pressure : ℝ
  combustion_time : ℝ
  vessel_diameter : ℝ
  vessel_thickness : ℝ
  vessel_length : ℝ
  vessel_material : String
  cap_type : String
  include_threads : Bool
  include_transition : Bool
  failure_criterion : String
  max_step : ℝ
  n_points_fem : ℕ

/-- Module 3 result bundle built by `run_complete_simulation`
(the `fem_analysis` dictionary). -/
structure FemAnalysis where
  lame_solution : ThickWallResult
  thick_vs_thin : ThinThickComparison
  stress_concentrations : StressConcentrationResult
  failure_location_predicted : String

/-- Summary statistics dictionary of `run_complete_simulation`. -/
structure SimulationSummary where
  peak_pressure : ℝ
  peak_temperature : ℝ
  max_dPdt : ℝ
  min_safety_factor : EReal
  max_hoop_stress : ℝ
  max_von_mises_stress : ℝ
  stress_concentration_factor : ℝ
  max_stress_with_concentration : ℝ
  safety_factor_with_concentration : ℝ

/-- Overall result of `run_complete_simulation`
(`full_simulation.FullSimulationResult`, without the timing field). -/
structure FullSimulationResult where
  system : SystemState
  fem_analysis : FemAnalysis
  summary : SimulationSummary
  warnings : List String
  failed : Bool
  failure_location : Option String
  safety_margin : EReal

/-- Warning message appended for a thick wall (thickness ratio above 0.05). -/
def warn_thick_wall : String := "Thick wall: thin-wall approximation error"

/-- Warning message appended when a flat end cap is selected. -/
def warn_flat_cap : String := "Flat end cap has high stress concentration (K=2.5)"

/-- Warning message appended when thread concentrations are included. -/
def warn_threads : String := "Threads included: high stress concentration zone"

/-- Warning message appended for a safety margin below 2.0. -/
def warn_low_margin : String := "Low safety margin: SF below 2.0"

/-- End-to-end orchestrator (`full_simulation.run_complete_simulation`):
run the dynamic tracker over the combustion series, take the peak
pressure, run the Lamé solver and the thick-versus-thin comparison at
that pressure, evaluate the stress concentrations, and aggregate the
verdict: failed = dynamic failure or concentration-adjusted safety
factor below one; safety margin = minimum of the dynamic minimum safety
factor and the concentration-adjusted safety factor; warnings appended
in order for a thickness ratio above 0.05, a flat cap, included threads,
and a safety margin below 2.0. The combustion result and the numerical
library oracles are inputs, as in `run_full_simulation`. -/
noncomputable def run_complete_simulation (config : FullSimulationConfig)
    (combustion_result : CombustionResult) (P_interp T_interp : ℝ → ℝ)
    (event_time : Option ℝ) : Except String FullSimulationResult := do
  let sys_config : SimulationConfig :=
    { vessel_volume := config.volume
      fuel_oxidizer := config.fuel_oxidizer
      initial_temperature := config.initial_temperature
      initial_pressure := config.initial_pressure
      vessel_diameter := config.vessel_diameter
      vessel_thickness := config.vessel_thickness
      vessel_length := config.vessel_length
      vessel_material := config.vessel_material
      combustion_time := config.combustion_time
      system_time := none
      max_step := config.max_step
      failure_criterion := config.failure_criterion }
  let (_w2, _comb, system_result) ←
    run_full_simulation sys_config combustion_result P_interp T_interp event_time
  let geometry : VesselGeometry :=
    { inner_diameter := config.vessel_diameter
      wall_thickness := config.vessel_thickness
      length := some config.vessel_length }
  let material ← get_material config.vessel_material
  let P_max := listMaxD system_result.pressure
  let r_i := config.vessel_diameter / 2
  let r_o := r_i + config.vessel_thickness
  let lame_result := solve_lame_equations r_i r_o P_max 0 (some material) config.n_points_fem
  let (_wc, comparison) ← compare_thick_vs_thin_wall geometry P_max material
  let (_ws, scr) ← calculate_maximum_stress P_max geometry material
    config.cap_type config.include_threads config.include_transition
  let (_wf, failure_loc) ← estimate_failure_location P_max geometry config.cap_type
  let summary : SimulationSummary :=
    { peak_pressure := listMaxD system_result.pressure
      peak_temperature := listMaxD system_result.temperature
      max_dPdt := combustion_result.max_dPdt
      min_safety_factor := listMinD system_result.safety_factor
      max_hoop_stress := listMaxD lame_result.sigma_theta
      max_von_mises_stress := listMaxD lame_result.sigma_vm
      stress_concentration_factor := scr.K_total
      max_stress_with_concentration := scr.sigma_max
      safety_factor_with_concentration := material.yield_strength / scr.sigma_max }
  let failed := system_result.failed
    || decide (summary.safety_factor_with_concentration < 1.0)
  let failure_location := if failed then some scr.location else none
  let safety_margin : EReal :=
    min summary.min_safety_factor
      ((summary.safety_factor_with_concentration : ℝ) : EReal)
  let warnings_list : List String :=
    (if comparison.thickness_over_diameter > 0.05 then [warn_thick_wall] else []) ++
    (if config.cap_type = "flat" then [warn_flat_cap] else []) ++
    (if config.include_threads then [warn_threads] else []) ++
    (if safety_margin < (2 : EReal) then [warn_low_margin] else [])
  pure
    { system := system_result
      fem_analysis :=
        { lame_solution := lame_result
          thick_vs_thin := comparison
          stress_concentrations := scr
          failure_location_predicted := failure_loc }
      summary := summary
      warnings := warnings_list
      failed := failed
      failure_location := failure_location
      safety_margin := safety_margin }

/-! ### Concrete instances used by witnesses and counterexamples -/

/-- A representative thin-wall bottle geometry: 95 mm inner diameter,
0.3 mm wall, 0.3 m length. -/
noncomputable def geom0 : VesselGeometry := ⟨0.095, 0.0003, some 0.3⟩

/-- A geometry in the marginal band: thickness/diameter = 0.06. -/
noncomputable def geomM : VesselGeometry := ⟨1, 0.06, none⟩

/-- A geometry with thickness/diameter exactly 0.10, the boundary of the
thin-wall validity check. -/
noncomputable def geomB : VesselGeometry := ⟨1, 0.1, none⟩

/-- A two-point combustion series ending at t = 1/2 s, used as concrete
input to the failure tracker. -/
noncomputable def cr0 : CombustionResult :=
  { time := [0, 1/2], pressure := [101325, 500000], temperature := [300, 1000],
    peak_pressure := 500000, max_dPdt := 0, success := true, message := "ok" }

/-- A constant 500 kPa pressure interpolant oracle. -/
noncomputable def Pconst : ℝ → ℝ := fun _ => 500000

/-- A constant 300 K temperature interpolant oracle. -/
noncomputable def Tconst : ℝ → ℝ := fun _ => 300

/-- A concrete end-to-end configuration: the PET bottle geometry with a
hemispherical cap, no threads or transition, yield criterion, coarse
steps and two through-thickness samples. -/
noncomputable def config0 : FullSimulationConfig :=
  { volume := 0.002, fuel_oxidizer := 2, initial_temperature := 300,
    initial_pressure := 101325, combustion_time := 1,
    vessel_diameter := 0.095, vessel_thickness := 0.0003, vessel_length := 0.3,
    vessel_material := "PET", cap_type := "hemispherical",
    include_threads := false, include_transition := false,
    failure_criterion := "yield", max_step := 1, n_points_fem := 2 }

/-- Placeholder result used only as the default when projecting an
orchestrator run out of `Except`. -/
noncomputable def junk_result : FullSimulationResult :=
  { system := ⟨[], [], [], [], [], [], [], [], [], false, none, none⟩
    fem_analysis := ⟨⟨[], [], [], [], [], [], [], [], []⟩,
      ⟨0, false, 0, 0, 0, 0⟩, ⟨0, 0, none, none, 0, 0, ""⟩, ""⟩
    summary := ⟨0, 0, 0, ⊤, 0, 0, 0, 0, 0⟩
    warnings := []
    failed := false
    failure_location := none
    safety_margin := ⊤ }

/-- The orchestrator result on the concrete configuration `config0` with
the concrete combustion series and oracles. -/
noncomputable def result0 : FullSimulationResult :=
  (run_complete_simulation config0 cr0 Pconst Tconst none).toOption.getD junk_result

/-! ### Helper lemmas -/

lemma validate_ok_of_le (g : VesselGeometry)
    (h : g.wall_thickness / g.inner_diameter ≤ 0.1) :
    validate_thin_wall_assumption g 0.1 =
      .ok (if g.wall_thickness / g.inner_diameter > 0.05 then
        [SimWarning.marginalThinWall] else []) := by
  simp only [validate_thin_wall_assumption]
  rw [if_neg (not_lt.mpr h)]
  split_ifs <;> rfl

lemma validate_error_of_gt (g : VesselGeometry)
    (h : g.wall_thickness / g.inner_diameter > 0.1) :
    validate_thin_wall_assumption g 0.1 = .error thin_wall_error := by
  simp only [validate_thin_wall_assumption]
  rw [if_pos h]

lemma validate_ok_warn (g : VesselGeometry) (th : ℝ) (w : List SimWarning)
    (h : validate_thin_wall_assumption g th = .ok w) :
    ∀ x ∈ w, x = SimWarning.marginalThinWall := by
  simp only [validate_thin_wall_assumption] at h
  split_ifs at h <;>
    first
      | (obtain rfl := Except.ok.inj h; simp)
      | simp at h

lemma hoop_ok_of_validate (P : ℝ) (g : VesselGeometry) (w : List SimWarning)
    (hv : validate_thin_wall_assumption g 0.1 = .ok w) :
    calculate_hoop_stress P g =
      .ok (w, P * g.inner_diameter / (2 * g.wall_thickness)) := by
  unfold calculate_hoop_stress
  rw [hv]
  rfl

lemma axial_ok_of_validate (P : ℝ) (g : VesselGeometry) (w : List SimWarning)
    (hv : validate_thin_wall_assumption g 0.1 = .ok w) :
    calculate_axial_stress P g =
      .ok (w, P * g.inner_diameter / (4 * g.wall_thickness)) := by
  unfold calculate_axial_stress
  rw [hv]
  rfl

lemma hoop_ok_val (P : ℝ) (g : VesselGeometry) (w : List SimWarning) (v : ℝ)
    (h : calculate_hoop_stress P g = .ok (w, v)) :
    v = P * g.inner_diameter / (2 * g.wall_thickness) ∧
      validate_thin_wall_assumption g 0.1 = .ok w := by
  unfold calculate_hoop_stress at h
  cases hv : validate_thin_wall_assumption g 0.1 with
  | error e => rw [hv] at h; simp [Bind.bind, Except.bind] at h
  | ok w' =>
    rw [hv] at h
    simp only [Bind.bind, Except.bind, Pure.pure, Except.pure, Except.ok.injEq,
      Prod.mk.injEq] at h
    exact ⟨h.2.symm, congrArg Except.ok h.1⟩

lemma axial_ok_val (P : ℝ) (g : VesselGeometry) (w : List SimWarning) (v : ℝ)
    (h : calculate_axial_stress P g = .ok (w, v)) :
    v = P * g.inner_diameter / (4 * g.wall_thickness) ∧
      validate_thin_wall_assumption g 0.1 = .ok w := by
  unfold calculate_axial_stress at h
  cases hv : validate_thin_wall_assumption g 0.1 with
  | error e => rw [hv] at h; simp [Bind.bind, Except.bind] at h
  | ok w' =>
    rw [hv] at h
    simp only [Bind.bind, Except.bind, Pure.pure, Except.pure, Except.ok.injEq,
      Prod.mk.injEq] at h
    exact ⟨h.2.symm, congrArg Except.ok h.1⟩

lemma burst_ok_val (g : VesselGeometry) (m : MaterialProperties) (uy : Bool)
    (sf : ℝ) (w : List SimWarning) (v : ℝ)
    (h : calculate_burst_pressure g m uy sf = .ok (w, v)) :
    v = 2 * (if uy then m.yield_strength else m.tensile_strength) *
      g.wall_thickness / g.inner_diameter / sf := by
  unfold calculate_burst_pressure at h
  cases hv : validate_thin_wall_assumption g 0.1 with
  | error e => rw [hv] at h; simp [Bind.bind, Except.bind] at h
  | ok w' =>
    rw [hv] at h
    simp only [Bind.bind, Except.bind, Pure.pure, Except.pure, Except.ok.injEq,
      Prod.mk.injEq] at h
    exact h.2.symm

/-! ### Claim theorems -/

/-- C3: for every pressure P > 0 and every geometry accepted by the
thin-wall validation, the hoop stress returned by `calculate_hoop_stress`
is P·D/(2t), the axial stress returned by `calculate_axial_stress` is
P·D/(4t), and the hoop stress is exactly twice the axial stress. -/
theorem hoop_twice_axial (P : ℝ) (g : VesselGeometry)
    (wh wa : List SimWarning) (hoopv axialv : ℝ)
    (hP : 0 < P)
    (hh : calculate_hoop_stress P g = .ok (wh, hoopv))
    (ha : calculate_axial_stress P g = .ok (wa, axialv)) :
    hoopv = P * g.inner_diameter / (2 * g.wall_thickness) ∧
    axialv = P * g.inner_diameter / (4 * g.wall_thickness) ∧
    hoopv = 2 * axialv := by
  obtain ⟨hv1, -⟩ := hoop_ok_val P g wh hoopv hh
  obtain ⟨hv2, -⟩ := axial_ok_val P g wa axialv ha
  refine ⟨hv1, hv2, ?_⟩
  rw [hv1, hv2]
  ring

/-- Witness for C3 at P = 500 kPa on the representative bottle geometry. -/
theorem hoop_twice_axial_witness :
    (0:ℝ) < 500000 ∧
    (500000 * (0.095:ℝ) / (2 * 0.0003) =
      2 * (500000 * (0.095:ℝ) / (4 * 0.0003))) := by
  constructor
  · norm_num
  · have hv : validate_thin_wall_assumption geom0 0.1 = .ok [] := by
      simp only [validate_thin_wall_assumption, geom0]
      norm_num
    have h := hoop_twice_axial 500000 geom0 [] []
      (500000 * geom0.inner_diameter / (2 * geom0.wall_thickness))
      (500000 * geom0.inner_diameter / (4 * geom0.wall_thickness))
      (by norm_num)
      (hoop_ok_of_validate 500000 geom0 [] hv)
      (axial_ok_of_validate 500000 geom0 [] hv)
    simpa [geom0] using h.2.2

lemma burst_ok_of_validate (g : VesselGeometry) (m : MaterialProperties)
    (uy : Bool) (sf : ℝ) (w : List SimWarning)
    (hv : validate_thin_wall_assumption g 0.1 = .ok w) :
    calculate_burst_pressure g m uy sf =
      .ok (w, 2 * (if uy then m.yield_strength else m.tensile_strength) *
        g.wall_thickness / g.inner_diameter / sf) := by
  unfold calculate_burst_pressure
  rw [hv]
  rfl

lemma thread_default (g : VesselGeometry) (ht : 0 < g.wall_thickness) :
    calculate_thread_stress_factor g none none = 4.5 := by
  unfold calculate_thread_stress_factor
  simp only [Option.getD_none]
  rw [if_pos (by positivity)]
  have h4 : g.wall_thickness / 2 / (g.wall_thickness / 2 / 4) = 4 := by
    field_simp
    ring
  rw [h4]
  have hs : Real.sqrt 4 = 2 := by
    rw [show (4 : ℝ) = 2 ^ 2 by norm_num, Real.sqrt_sq (by norm_num : (0:ℝ) ≤ 2)]
  rw [hs]
  norm_num

lemma linspace_ne_nil (a b : ℝ) (n : ℕ) (hn : 1 ≤ n) : linspace a b n ≠ [] := by
  simp only [linspace, ne_eq, List.map_eq_nil_iff, List.range_eq_nil]
  omega

lemma linspace_headD (a b : ℝ) (n : ℕ) (hn : 1 ≤ n) (d : ℝ) :
    (linspace a b n).headD d = a := by
  obtain ⟨m, rfl⟩ : ∃ m, n = m + 1 := ⟨n - 1, by omega⟩
  unfold linspace
  rw [List.range_succ_eq_map]
  simp

lemma linspace_getLastD (a b : ℝ) (n : ℕ) (hn : 2 ≤ n) (d : ℝ) :
    (linspace a b n).getLastD d = b := by
  obtain ⟨m, rfl⟩ : ∃ m, n = m + 1 := ⟨n - 1, by omega⟩
  unfold linspace
  rw [List.range_succ, List.map_append]
  simp only [List.map_cons, List.map_nil]
  rw [List.getLastD_concat]
  have hm : (m : ℝ) ≠ 0 := by
    have h1 : m ≠ 0 := by omega
    exact_mod_cast h1
  simp only [Nat.add_sub_cancel]
  field_simp

lemma headD_map (f : ℝ → ℝ) (l : List ℝ) (hl : l ≠ []) (d d' : ℝ) :
    (l.map f).headD d' = f (l.headD d) := by
  cases l with
  | nil => exact absurd rfl hl
  | cons x xs => simp

lemma getLastD_map (f : ℝ → ℝ) (l : List ℝ) (hl : l ≠ []) (d d' : ℝ) :
    (l.map f).getLastD d' = f (l.getLastD d) := by
  rw [List.getLastD_eq_getLast?, List.getLastD_eq_getLast?, List.getLast?_map]
  cases h : l.getLast? with
  | none => exact absurd (List.getLast?_eq_none_iff.mp h) hl
  | some x => simp

/-- C8: for every material, allowable-stress choice and safety factor,
`calculate_burst_pressure` is exactly doubled by doubling the wall
thickness, and scaling the inner diameter by any factor k > 0 divides the
burst pressure by k (inverse proportionality). All three geometries are
assumed accepted by the thin-wall validation, witnessed by the ok
results. -/
theorem burst_pressure_scaling (D t sf k : ℝ) (len1 len2 len3 : Option ℝ)
    (m : MaterialProperties) (uy : Bool) (w1 w2 w3 : List SimWarning)
    (b1 b2 b3 : ℝ) (hk : 0 < k)
    (h1 : calculate_burst_pressure ⟨D, t, len1⟩ m uy sf = .ok (w1, b1))
    (h2 : calculate_burst_pressure ⟨D, 2 * t, len2⟩ m uy sf = .ok (w2, b2))
    (h3 : calculate_burst_pressure ⟨k * D, t, len3⟩ m uy sf = .ok (w3, b3)) :
    b2 = 2 * b1 ∧ b3 = b1 / k := by
  have e1 := burst_ok_val ⟨D, t, len1⟩ m uy sf w1 b1 h1
  have e2 := burst_ok_val ⟨D, 2 * t, len2⟩ m uy sf w2 b2 h2
  have e3 := burst_ok_val ⟨k * D, t, len3⟩ m uy sf w3 b3 h3
  simp only at e1 e2 e3
  constructor
  · rw [e1, e2]; ring
  · rw [e1, e3]
    rw [div_div, div_div, div_div, mul_comm k D, ← mul_assoc]
    rw [mul_comm (D * k) sf]
    rw [mul_comm D k, ← mul_assoc, mul_comm sf k, mul_assoc]
    ring

/-- Witness for C8: doubling the 0.3 mm wall of the bottle geometry
doubles the PET yield-based burst pressure, and doubling the diameter
halves it. -/
theorem burst_pressure_scaling_witness :
    (0:ℝ) < 2 ∧
    2 * PET.yield_strength * (2 * 0.0003) / 0.095 / 1 =
      2 * (2 * PET.yield_strength * 0.0003 / 0.095 / 1) ∧
    2 * PET.yield_strength * 0.0003 / (2 * 0.095) / 1 =
      2 * PET.yield_strength * 0.0003 / 0.095 / 1 / 2 := by
  have hv1 : validate_thin_wall_assumption ⟨0.095, 0.0003, none⟩ 0.1 = .ok [] := by
    simp only [validate_thin_wall_assumption]
    norm_num
  have hv2 : validate_thin_wall_assumption ⟨0.095, 2 * 0.0003, none⟩ 0.1 = .ok [] := by
    simp only [validate_thin_wall_assumption]
    norm_num
  have hv3 : validate_thin_wall_assumption ⟨2 * 0.095, 0.0003, none⟩ 0.1 = .ok [] := by
    simp only [validate_thin_wall_assumption]
    norm_num
  have h := burst_pressure_scaling 0.095 0.0003 1 2 none none none PET true [] [] []
    (2 * PET.yield_strength * 0.0003 / 0.095 / 1)
    (2 * PET.yield_strength * (2 * 0.0003) / 0.095 / 1)
    (2 * PET.yield_strength * 0.0003 / (2 * 0.095) / 1)
    (by norm_num)
    (by simpa using burst_ok_of_validate ⟨0.095, 0.0003, none⟩ PET true 1 [] hv1)
    (by simpa using burst_ok_of_validate ⟨0.095, 2 * 0.0003, none⟩ PET true 1 [] hv2)
    (by simpa using burst_ok_of_validate ⟨2 * 0.095, 0.0003, none⟩ PET true 1 [] hv3)
  exact ⟨by norm_num, h.1, h.2⟩

/-- C9: with unspecified thread depth and root radius,
`calculate_thread_stress_factor` returns exactly 4.5 for every geometry
with positive wall thickness: the defaults give depth/radius = 4, so
K = 1 + 2·√4 = 5, clamped down to the upper bound 4.5. -/
theorem thread_factor_defaults (g : VesselGeometry)
    (ht : 0 < g.wall_thickness) :
    calculate_thread_stress_factor g none none = 4.5 :=
  thread_default g ht

/-- Witness for C9 on the representative bottle geometry. -/
theorem thread_factor_defaults_witness :
    (0:ℝ) < geom0.wall_thickness ∧
    calculate_thread_stress_factor geom0 none none = 4.5 := by
  have ht : (0:ℝ) < geom0.wall_thickness := by norm_num [geom0]
  exact ⟨ht, thread_factor_defaults geom0 ht⟩

/-- C6 (amended): the thin-wall validation raises a fatal error exactly
for thickness/diameter strictly above 0.10 — at exactly 0.10 it does not
raise — and the error propagates through every thin-wall stress and
burst computation; for any accepted ratio it returns, with the marginal
warning exactly when the ratio exceeds 0.05. -/
theorem thin_wall_gate (g : VesselGeometry) (P : ℝ) (m : MaterialProperties)
    (uy : Bool) (sf : ℝ) :
    (g.wall_thickness / g.inner_diameter > 0.1 →
      validate_thin_wall_assumption g 0.1 = .error thin_wall_error ∧
      calculate_hoop_stress P g = .error thin_wall_error ∧
      calculate_axial_stress P g = .error thin_wall_error ∧
      calculate_burst_pressure g m uy sf = .error thin_wall_error) ∧
    (g.wall_thickness / g.inner_diameter ≤ 0.1 →
      validate_thin_wall_assumption g 0.1 =
        .ok (if g.wall_thickness / g.inner_diameter > 0.05 then
          [SimWarning.marginalThinWall] else [])) := by
  constructor
  · intro hgt
    have hv := validate_error_of_gt g hgt
    refine ⟨hv, ?_, ?_, ?_⟩
    · unfold calculate_hoop_stress; rw [hv]; rfl
    · unfold calculate_axial_stress; rw [hv]; rfl
    · unfold calculate_burst_pressure; rw [hv]; rfl
  · exact validate_ok_of_le g

/-- Witness for C6 in the marginal band: ratio 0.06 returns with the
marginal warning rather than raising. -/
theorem thin_wall_gate_witness :
    validate_thin_wall_assumption geomM 0.1 = .ok [SimWarning.marginalThinWall] := by
  have h := (thin_wall_gate geomM 1 PET true 1).2 (by norm_num [geomM])
  rw [h]
  norm_num [geomM]

/-- Counterexample for C6 as stated: at thickness/diameter exactly 0.10
the code does not raise — it returns with the marginal warning — whereas
the claim demands a fatal error for any ratio not below 0.10. -/
theorem thin_wall_gate_boundary_cx :
    geomB.wall_thickness / geomB.inner_diameter = 0.1 ∧
    validate_thin_wall_assumption geomB 0.1 = .ok [SimWarning.marginalThinWall] ∧
    ∀ e, validate_thin_wall_assumption geomB 0.1 ≠ .error e := by
  have hok : validate_thin_wall_assumption geomB 0.1 = .ok [SimWarning.marginalThinWall] := by
    simp only [validate_thin_wall_assumption, geomB]
    norm_num
  refine ⟨by norm_num [geomB], hok, ?_⟩
  intro e
  rw [hok]
  simp

/-- C2: the Lamé solution of `solve_lame_equations` satisfies the
boundary conditions exactly: the radial stress at the first sample
(r = r_i) is −P_i and at the last sample (r = r_o) is −P_o, for every
0 < r_i < r_o, all pressures, any material option and any sample count
n ≥ 2; consequently both boundary checks of `validate_lame_solution`
pass (exact equality is well within relative tolerance 1e-6). -/
theorem lame_boundary_conditions (r_i r_o P_i P_o : ℝ)
    (mat : Option MaterialProperties) (n : ℕ)
    (h0 : 0 < r_i) (hio : r_i < r_o) (hn : 2 ≤ n) :
    (solve_lame_equations r_i r_o P_i P_o mat n).sigma_r.headD 0 = -P_i ∧
    (solve_lame_equations r_i r_o P_i P_o mat n).sigma_r.getLastD 0 = -P_o ∧
    (validate_lame_solution (solve_lame_equations r_i r_o P_i P_o mat n)
      P_i P_o).bc_inner = true ∧
    (validate_lame_solution (solve_lame_equations r_i r_o P_i P_o mat n)
      P_i P_o).bc_outer = true := by
  have hne : linspace r_i r_o n ≠ [] := linspace_ne_nil _ _ _ (by omega)
  have hhead : (linspace r_i r_o n).headD 0 = r_i := linspace_headD _ _ _ (by omega) _
  have hlast : (linspace r_i r_o n).getLastD 0 = r_o := linspace_getLastD _ _ _ hn _
  have hk : r_o ^ 2 - r_i ^ 2 ≠ 0 := by
    have : r_i ^ 2 < r_o ^ 2 := by nlinarith
    nlinarith
  have hri : r_i ≠ 0 := ne_of_gt h0
  have hro : r_o ≠ 0 := ne_of_gt (lt_trans h0 hio)
  have hsr : (solve_lame_equations r_i r_o P_i P_o mat n).sigma_r =
      (linspace r_i r_o n).map (fun x =>
        (P_i * r_i ^ 2 - P_o * r_o ^ 2) / (r_o ^ 2 - r_i ^ 2) -
        (P_i - P_o) * r_i ^ 2 * r_o ^ 2 / (r_o ^ 2 - r_i ^ 2) / x ^ 2) := by
    simp only [solve_lame_equations]
  have hin : (solve_lame_equations r_i r_o P_i P_o mat n).sigma_r.headD 0 = -P_i := by
    rw [hsr, headD_map _ _ hne 0, hhead]
    field_simp
    ring
  have hout : (solve_lame_equations r_i r_o P_i P_o mat n).sigma_r.getLastD 0 = -P_o := by
    rw [hsr, getLastD_map _ _ hne 0, hlast]
    field_simp
    ring
  refine ⟨hin, hout, ?_, ?_⟩
  · simp only [validate_lame_solution, npIsClose, hin]
    rw [decide_eq_true_eq]
    rw [sub_neg_eq_add, neg_add_cancel, abs_zero]
    positivity
  · simp only [validate_lame_solution, npIsClose, hout]
    rw [decide_eq_true_eq]
    rw [sub_neg_eq_add, neg_add_cancel, abs_zero]
    positivity

/-- Witness for C2 at the spec's scenario radii 50 mm and 60 mm with
P_i = 10 MPa, P_o = 0, two sample points. -/
theorem lame_boundary_conditions_witness :
    (0:ℝ) < 0.05 ∧ (0.05:ℝ) < 0.06 ∧ 2 ≤ 2 ∧
    ((solve_lame_equations 0.05 0.06 10000000 0 none 2).sigma_r.headD 0 = -10000000 ∧
     (solve_lame_equations 0.05 0.06 10000000 0 none 2).sigma_r.getLastD 0 = -0 ∧
     (validate_lame_solution (solve_lame_equations 0.05 0.06 10000000 0 none 2)
       10000000 0).bc_inner = true ∧
     (validate_lame_solution (solve_lame_equations 0.05 0.06 10000000 0 none 2)
       10000000 0).bc_outer = true) := by
  refine ⟨by norm_num, by norm_num, le_refl 2, ?_⟩
  exact lame_boundary_conditions 0.05 0.06 10000000 0 none 2
    (by norm_num) (by norm_num) (le_refl 2)

lemma stress_state_ok_val (P : ℝ) (g : VesselGeometry) (w : List SimWarning)
    (ss : StressState) (h : calculate_stress_state P g = .ok (w, ss)) :
    ss.hoop_stress = P * g.inner_diameter / (2 * g.wall_thickness) ∧
    ss.axial_stress = P * g.inner_diameter / (4 * g.wall_thickness) ∧
    ss.radial_stress = 0 ∧
    ∃ w', validate_thin_wall_assumption g 0.1 = .ok w' ∧ w = w' ++ w' := by
  unfold calculate_stress_state at h
  cases hv : validate_thin_wall_assumption g 0.1 with
  | error e =>
    have hh : calculate_hoop_stress P g = .error e := by
      unfold calculate_hoop_stress; rw [hv]; rfl
    rw [hh] at h
    simp [Bind.bind, Except.bind] at h
  | ok w' =>
    rw [hoop_ok_of_validate P g w' hv] at h
    simp only [Bind.bind, Except.bind] at h
    rw [axial_ok_of_validate P g w' hv] at h
    simp only [Pure.pure, Except.pure, Except.ok.injEq, Prod.mk.injEq] at h
    obtain ⟨hw, hss⟩ := h
    subst hss
    exact ⟨rfl, rfl, rfl, w', rfl, hw.symm⟩

lemma cap_factor_flat (g : VesselGeometry) :
    calculate_end_cap_stress_factor g "flat" = .ok ([SimWarning.flatCapAdvisory], 2.5) := rfl

lemma cap_factor_hemispherical (g : VesselGeometry) :
    calculate_end_cap_stress_factor g "hemispherical" = .ok ([], 1.0) := rfl

lemma cap_ok_mem (g : VesselGeometry) (c : String) (w : List SimWarning) (K : ℝ)
    (h : calculate_end_cap_stress_factor g c = .ok (w, K)) :
    K = 1.0 ∨ K = 1.5 ∨ K = 1.8 ∨ K = 2.5 := by
  simp only [calculate_end_cap_stress_factor] at h
  cases hf : cap_factors.find? (fun p => p.1 == py_lower c) with
  | none => rw [hf] at h; simp at h
  | some p =>
    rw [hf] at h
    simp only [Except.ok.injEq, Prod.mk.injEq] at h
    have hmem : p ∈ cap_factors := List.mem_of_find?_eq_some hf
    have hK : K = p.2 := h.2.symm
    simp only [cap_factors, List.mem_cons, List.not_mem_nil, or_false,
      Prod.mk.injEq] at hmem
    rcases hmem with rfl | rfl | rfl | rfl | rfl <;> simp [hK]

lemma cap_ok_ge_one (g : VesselGeometry) (c : String) (w : List SimWarning) (K : ℝ)
    (h : calculate_end_cap_stress_factor g c = .ok (w, K)) : 1 ≤ K := by
  rcases cap_ok_mem g c w K h with h1 | h1 | h1 | h1 <;> rw [h1] <;> norm_num

lemma thread_cases (g : VesselGeometry) :
    calculate_thread_stress_factor g none none = 4.5 ∨
    calculate_thread_stress_factor g none none = 4 := by
  by_cases ht : 0 < g.wall_thickness
  · exact Or.inl (thread_default g ht)
  · right
    unfold calculate_thread_stress_factor
    simp only [Option.getD_none]
    rw [if_neg]
    · norm_num
    · have h1 : g.wall_thickness ≤ 0 := not_lt.mp ht
      have h2 : g.wall_thickness / 2 / 4 ≤ 0 := by linarith
      exact not_lt.mpr h2

lemma transition_le_35 (a b c : ℝ) : calculate_transition_radius_factor a b c ≤ 3.5 := by
  simp only [calculate_transition_radius_factor]
  exact min_le_right _ _

lemma transition_ge_one (a b c : ℝ) : 1 ≤ calculate_transition_radius_factor a b c := by
  simp only [calculate_transition_radius_factor]
  exact le_min (le_trans (by norm_num) (le_max_right _ 1.0)) (by norm_num)

lemma max_stress_ok_elim (P : ℝ) (g : VesselGeometry) (m : MaterialProperties)
    (cap : String) (ith itr : Bool) (w : List SimWarning)
    (r : StressConcentrationResult)
    (h : calculate_maximum_stress P g m cap ith itr = .ok (w, r)) :
    ∃ w0 ss w1 Kcap,
      calculate_stress_state P g = .ok (w0, ss) ∧
      calculate_end_cap_stress_factor g cap = .ok (w1, Kcap) ∧
      w = w0 ++ w1 ∧
      r = { sigma_nominal := ss.hoop_stress
            K_cap := Kcap
            K_thread := if ith then
                some (if ith then calculate_thread_stress_factor g none none else 1.0)
              else none
            K_transition := if itr then
                some (if itr then
                  calculate_transition_radius_factor g.inner_diameter 0.028 0.005
                else 1.0)
              else none
            K_total := max (max Kcap
                (if ith then calculate_thread_stress_factor g none none else 1.0))
              (if itr then
                calculate_transition_radius_factor g.inner_diameter 0.028 0.005
              else 1.0)
            sigma_max := max (max Kcap
                (if ith then calculate_thread_stress_factor g none none else 1.0))
              (if itr then
                calculate_transition_radius_factor g.inner_diameter 0.028 0.005
              else 1.0) * ss.hoop_stress
            location :=
              if (if itr then
                    calculate_transition_radius_factor g.inner_diameter 0.028 0.005
                  else 1.0) >
                  max Kcap
                    (if ith then calculate_thread_stress_factor g none none else 1.0) then
                "Neck transition"
              else if (if ith then calculate_thread_stress_factor g none none else 1.0) >
                  Kcap then
                "Thread root"
              else "End cap" } := by
  unfold calculate_maximum_stress at h
  cases hss : calculate_stress_state P g with
  | error e => rw [hss] at h; simp [Bind.bind, Except.bind] at h
  | ok pss =>
    rw [hss] at h
    obtain ⟨w0, ss⟩ := pss
    simp only [Bind.bind, Except.bind] at h
    cases hcap : calculate_end_cap_stress_factor g cap with
    | error e => rw [hcap] at h; simp [Bind.bind, Except.bind] at h
    | ok pcap =>
      rw [hcap] at h
      obtain ⟨w1, Kcap⟩ := pcap
      simp only [Pure.pure, Except.pure, Except.ok.injEq, Prod.mk.injEq] at h
      exact ⟨w0, ss, w1, Kcap, rfl, rfl, h.1.symm, h.2.symm⟩

lemma argmax3_spec (Kcap Kth Ktr : ℝ) :
    ((if Ktr > max Kcap Kth then "Neck transition"
      else if Kth > Kcap then "Thread root" else "End cap") = "End cap" ∧
      max (max Kcap Kth) Ktr = Kcap) ∨
    ((if Ktr > max Kcap Kth then "Neck transition"
      else if Kth > Kcap then "Thread root" else "End cap") = "Thread root" ∧
      max (max Kcap Kth) Ktr = Kth) ∨
    ((if Ktr > max Kcap Kth then "Neck transition"
      else if Kth > Kcap then "Thread root" else "End cap") = "Neck transition" ∧
      max (max Kcap Kth) Ktr = Ktr) := by
  split_ifs with h1 h2
  · exact Or.inr (Or.inr ⟨rfl, max_eq_right (le_of_lt h1)⟩)
  · exact Or.inr (Or.inl ⟨rfl,
      (max_eq_left (not_lt.mp h1)).trans (max_eq_right (le_of_lt h2))⟩)
  · exact Or.inl ⟨rfl,
      (max_eq_left (not_lt.mp h1)).trans (max_eq_left (not_lt.mp h2))⟩

/-- C1: for every pressure, geometry with positive wall thickness,
material, valid cap type and feature subset, `calculate_maximum_stress`
returns K_total equal to the maximum of the individual feature factors
(disabled features contributing 1.0) — never a sum or product — a
critical location attaining that maximum, and sigma_max = K_total times
the nominal thin-wall hoop stress P·D/(2t); with cap "flat" and threads
enabled, K_total = max 2.5 threadFactor. -/
theorem maximum_stress_combination (P : ℝ) (g : VesselGeometry)
    (m : MaterialProperties) (cap : String) (ith itr : Bool)
    (w : List SimWarning) (r : StressConcentrationResult)
    (ht : 0 < g.wall_thickness)
    (h : calculate_maximum_stress P g m cap ith itr = .ok (w, r)) :
    r.K_total = max (max r.K_cap
        (if ith then calculate_thread_stress_factor g none none else 1.0))
      (if itr then calculate_transition_radius_factor g.inner_diameter 0.028 0.005
       else 1.0) ∧
    r.sigma_nominal = P * g.inner_diameter / (2 * g.wall_thickness) ∧
    r.sigma_max = r.K_total * r.sigma_nominal ∧
    ((r.location = "End cap" ∧ r.K_total = r.K_cap) ∨
     (r.location = "Thread root" ∧
       r.K_total = (if ith then calculate_thread_stress_factor g none none else 1.0)) ∨
     (r.location = "Neck transition" ∧
       r.K_total = (if itr then
         calculate_transition_radius_factor g.inner_diameter 0.028 0.005 else 1.0))) ∧
    (cap = "flat" → ith = true →
      r.K_total = max 2.5 (calculate_thread_stress_factor g none none)) := by
  obtain ⟨w0, ss, w1, Kcap, hss, hcap, -, hr⟩ :=
    max_stress_ok_elim P g m cap ith itr w r h
  obtain ⟨hhoop, -, -, -⟩ := stress_state_ok_val P g w0 ss hss
  subst hr
  refine ⟨rfl, hhoop, rfl, ?_, ?_⟩
  · exact argmax3_spec Kcap
      (if ith then calculate_thread_stress_factor g none none else 1.0)
      (if itr then calculate_transition_radius_factor g.inner_diameter 0.028 0.005
       else 1.0)
  · intro hflat hith
    subst hflat
    have hKcap : Kcap = 2.5 := by
      rw [cap_factor_flat g] at hcap
      exact (congrArg Prod.snd (Except.ok.inj hcap)).symm
    have hthread := thread_default g ht
    have hKthv : (if ith = true then calculate_thread_stress_factor g none none
        else 1.0) = 4.5 := by
      rw [if_pos hith, hthread]
    have htr : (if itr = true then
        calculate_transition_radius_factor g.inner_diameter 0.028 0.005
        else 1.0) ≤ 4.5 := by
      by_cases hi : itr = true
      · rw [if_pos hi]
        linarith [transition_le_35 g.inner_diameter 0.028 0.005]
      · rw [if_neg hi]; norm_num
    have e3 : max (2.5:ℝ) 4.5 = 4.5 := max_eq_right (by norm_num)
    simp only
    rw [hKcap, hKthv, hthread, e3]
    exact max_eq_left htr

lemma stress_state_ok_build (P : ℝ) (g : VesselGeometry) (w : List SimWarning)
    (hv : validate_thin_wall_assumption g 0.1 = .ok w) :
    calculate_stress_state P g = .ok (w ++ w,
      { hoop_stress := P * g.inner_diameter / (2 * g.wall_thickness)
        axial_stress := P * g.inner_diameter / (4 * g.wall_thickness)
        radial_stress := 0
        von_mises_stress := calculate_von_mises_stress
          (P * g.inner_diameter / (2 * g.wall_thickness))
          (P * g.inner_diameter / (4 * g.wall_thickness)) 0 }) := by
  unfold calculate_stress_state
  rw [hoop_ok_of_validate P g w hv]
  simp only [Bind.bind, Except.bind]
  rw [axial_ok_of_validate P g w hv]
  rfl

lemma max_stress_ok_build (P : ℝ) (g : VesselGeometry) (m : MaterialProperties)
    (cap : String) (ith itr : Bool) (wss : List SimWarning) (ss : StressState)
    (w1 : List SimWarning) (Kcap : ℝ)
    (hss : calculate_stress_state P g = .ok (wss, ss))
    (hcap : calculate_end_cap_stress_factor g cap = .ok (w1, Kcap)) :
    ∃ r, calculate_maximum_stress P g m cap ith itr = .ok (wss ++ w1, r) := by
  unfold calculate_maximum_stress
  rw [hss]
  simp only [Bind.bind, Except.bind]
  rw [hcap]
  exact ⟨_, rfl⟩

/-- Witness for C1: at 500 kPa on the bottle geometry with a flat cap and
threads enabled, the combined factor is max 2.5 threadFactor. -/
theorem maximum_stress_combination_witness :
    (0:ℝ) < geom0.wall_thickness ∧
    (calculate_maximum_stress 500000 geom0 PET "flat" true false).map
        (fun p => p.2.K_total) =
      .ok (max 2.5 (calculate_thread_stress_factor geom0 none none)) := by
  have ht : (0:ℝ) < geom0.wall_thickness := by norm_num [geom0]
  have hv : validate_thin_wall_assumption geom0 0.1 = .ok [] := by
    simp only [validate_thin_wall_assumption, geom0]
    norm_num
  have hss := stress_state_ok_build 500000 geom0 [] hv
  obtain ⟨r, hr⟩ := max_stress_ok_build 500000 geom0 PET "flat" true false _ _ _ _
    hss (cap_factor_flat geom0)
  have hthm := maximum_stress_combination 500000 geom0 PET "flat" true false _ r ht hr
  refine ⟨ht, ?_⟩
  rw [hr]
  simp only [Except.map]
  rw [hthm.2.2.2.2 rfl rfl]

lemma argmax3_tie_endcap (Kcap Kth Ktr : ℝ)
    (hcap1 : 1 ≤ Kcap)
    (hth : Kth = 1.0 ∨ 4 ≤ Kth)
    (htr : Ktr ≤ 3.5)
    (htie : (Kcap = max (max Kcap Kth) Ktr ∧ Kth = max (max Kcap Kth) Ktr) ∨
      (Kcap = max (max Kcap Kth) Ktr ∧ Ktr = max (max Kcap Kth) Ktr) ∨
      (Kth = max (max Kcap Kth) Ktr ∧ Ktr = max (max Kcap Kth) Ktr)) :
    (if Ktr > max Kcap Kth then "Neck transition"
     else if Kth > Kcap then "Thread root" else "End cap") = "End cap" := by
  have h1 : Kcap ≤ max Kcap Kth := le_max_left _ _
  have h2 : Kth ≤ max Kcap Kth := le_max_right _ _
  have h3 : max Kcap Kth ≤ max (max Kcap Kth) Ktr := le_max_left _ _
  have h4 : Ktr ≤ max (max Kcap Kth) Ktr := le_max_right _ _
  rcases htie with ⟨ha, hb⟩ | ⟨ha, hb⟩ | ⟨ha, hb⟩
  · rw [if_neg (not_lt.mpr (by linarith)), if_neg (not_lt.mpr (by linarith))]
  · rw [if_neg (not_lt.mpr (by linarith)), if_neg (not_lt.mpr (by linarith))]
  · rcases hth with h5 | h5
    · have hcap_eq : Kcap = max (max Kcap Kth) Ktr := by
        have : max (max Kcap Kth) Ktr ≤ 1 := by rw [← ha, h5]; norm_num
        have hc : Kcap ≤ max (max Kcap Kth) Ktr := by linarith
        linarith
      rw [if_neg (not_lt.mpr (by linarith)), if_neg (not_lt.mpr (by linarith))]
    · exact absurd (hb ▸ htr) (by push_neg; linarith)

/-- C10: the critical location reported by `calculate_maximum_stress` is
always one of "End cap", "Thread root", "Neck transition" — never the
cylindrical body — and whenever two feature factors tie for the combined
maximum, the reported location is "End cap". -/
theorem critical_location_labels (P : ℝ) (g : VesselGeometry)
    (m : MaterialProperties) (cap : String) (ith itr : Bool)
    (w : List SimWarning) (r : StressConcentrationResult)
    (h : calculate_maximum_stress P g m cap ith itr = .ok (w, r)) :
    (r.location = "End cap" ∨ r.location = "Thread root" ∨
      r.location = "Neck transition") ∧
    (((r.K_cap = r.K_total ∧
        (if ith then calculate_thread_stress_factor g none none else 1.0) = r.K_total) ∨
      (r.K_cap = r.K_total ∧
        (if itr then calculate_transition_radius_factor g.inner_diameter 0.028 0.005
         else 1.0) = r.K_total) ∨
      ((if ith then calculate_thread_stress_factor g none none else 1.0) = r.K_total ∧
        (if itr then calculate_transition_radius_factor g.inner_diameter 0.028 0.005
         else 1.0) = r.K_total)) →
      r.location = "End cap") := by
  obtain ⟨w0, ss, w1, Kcap, hss, hcap, -, hr⟩ :=
    max_stress_ok_elim P g m cap ith itr w r h
  subst hr
  constructor
  · rcases argmax3_spec Kcap
      (if ith then calculate_thread_stress_factor g none none else 1.0)
      (if itr then calculate_transition_radius_factor g.inner_diameter 0.028 0.005
       else 1.0) with ⟨h1, -⟩ | ⟨h1, -⟩ | ⟨h1, -⟩
    · exact Or.inl h1
    · exact Or.inr (Or.inl h1)
    · exact Or.inr (Or.inr h1)
  · intro htie
    refine argmax3_tie_endcap Kcap _ _ (cap_ok_ge_one g cap w1 Kcap hcap) ?_ ?_ htie
    · by_cases hi : ith = true
      · rw [if_pos hi]
        rcases thread_cases g with hc | hc <;> rw [hc]
        · right; norm_num
        · right; norm_num
      · rw [if_neg hi]
        left; rfl
    · by_cases hi : itr = true
      · rw [if_pos hi]
        exact transition_le_35 _ _ _
      · rw [if_neg hi]; norm_num

/-- Witness for C10: hemispherical cap with threads and transition
disabled — all factors 1.0 tie — reports "End cap". -/
theorem critical_location_labels_witness :
    (calculate_maximum_stress 500000 geom0 PET "hemispherical" false false).map
      (fun p => p.2.location) = .ok "End cap" := by
  have hv : validate_thin_wall_assumption geom0 0.1 = .ok [] := by
    simp only [validate_thin_wall_assumption, geom0]
    norm_num
  have hss := stress_state_ok_build 500000 geom0 [] hv
  obtain ⟨r, hr⟩ := max_stress_ok_build 500000 geom0 PET "hemispherical" false false _ _ _ _
    hss (cap_factor_hemispherical geom0)
  have hthm := critical_location_labels 500000 geom0 PET "hemispherical" false false _ r hr
  have hKcap : r.K_cap = 1.0 := by
    obtain ⟨w0, ss, w1, Kcap, -, hcap, -, hr2⟩ :=
      max_stress_ok_elim 500000 geom0 PET "hemispherical" false false _ r hr
    rw [cap_factor_hemispherical geom0] at hcap
    have hK : Kcap = 1.0 := (congrArg Prod.snd (Except.ok.inj hcap)).symm
    rw [hr2]
    exact hK
  have hKtot : r.K_total = 1.0 := by
    obtain ⟨w0, ss, w1, Kcap, -, hcap, -, hr2⟩ :=
      max_stress_ok_elim 500000 geom0 PET "hemispherical" false false _ r hr
    rw [cap_factor_hemispherical geom0] at hcap
    have hK : Kcap = 1.0 := (congrArg Prod.snd (Except.ok.inj hcap)).symm
    rw [hr2]
    simp only [Bool.false_eq_true, if_false, hK]
    rw [max_self, max_self]
  have hloc := hthm.2 (Or.inl ⟨by rw [hKcap, hKtot],
    by simp only [Bool.false_eq_true, if_false]; rw [hKtot]⟩)
  rw [hr]
  simp only [Except.map]
  rw [hloc]

lemma except_bind_ok {α β : Type} (e : Except String α) (f : α → Except String β)
    (b : β) (h : e >>= f = .ok b) : ∃ a, e = .ok a ∧ f a = .ok b := by
  cases e with
  | error err => simp [Bind.bind, Except.bind] at h
  | ok a => exact ⟨a, rfl, by simpa [Bind.bind, Except.bind] using h⟩

lemma exceptMapList_ok_forall {α β : Type} (f : α → Except String β) :
    ∀ (l : List α) (ys : List β), exceptMapList f l = .ok ys →
      ∀ y ∈ ys, ∃ x ∈ l, f x = .ok y := by
  intro l
  induction l with
  | nil =>
    intro ys h y hy
    simp only [exceptMapList, Except.ok.injEq] at h
    subst h
    simp at hy
  | cons a l ih =>
    intro ys h y hy
    simp only [exceptMapList] at h
    obtain ⟨b, hb, h2⟩ := except_bind_ok _ _ _ h
    obtain ⟨bs, hbs, h3⟩ := except_bind_ok _ _ _ h2
    simp only [Pure.pure, Except.pure, Except.ok.injEq] at h3
    subst h3
    rcases List.mem_cons.mp hy with rfl | hmem
    · exact ⟨a, List.mem_cons_self a l, hb⟩
    · obtain ⟨x, hx, hfx⟩ := ih bs hbs y hmem
      exact ⟨x, List.mem_cons_of_mem _ hx, hfx⟩

lemma exceptMapList_ok_map {α β : Type} (f : α → Except String β) (g : β → α) :
    ∀ (l : List α) (ys : List β), exceptMapList f l = .ok ys →
      (∀ x y, f x = .ok y → g y = x) → ys.map g = l := by
  intro l
  induction l with
  | nil =>
    intro ys h _
    simp only [exceptMapList, Except.ok.injEq] at h
    subst h
    rfl
  | cons a l ih =>
    intro ys h hg
    simp only [exceptMapList] at h
    obtain ⟨b, hb, h2⟩ := except_bind_ok _ _ _ h
    obtain ⟨bs, hbs, h3⟩ := except_bind_ok _ _ _ h2
    simp only [Pure.pure, Except.pure, Except.ok.injEq] at h3
    subst h3
    simp only [List.map_cons]
    rw [hg a b hb, ih bs hbs hg]

lemma exceptMapList_ok_exists {α β : Type} (f : α → Except String β)
    (l : List α) (h : ∀ x ∈ l, ∃ y, f x = .ok y) :
    ∃ ys, exceptMapList f l = .ok ys := by
  induction l with
  | nil => exact ⟨[], rfl⟩
  | cons a l ih =>
    obtain ⟨y, hy⟩ := h a (List.mem_cons_self a l)
    obtain ⟨ys, hys⟩ := ih (fun x hx => h x (List.mem_cons_of_mem _ hx))
    refine ⟨y :: ys, ?_⟩
    simp only [exceptMapList]
    rw [hy]
    simp only [Bind.bind, Except.bind]
    rw [hys]
    rfl

lemma safety_ok_build (P : ℝ) (g : VesselGeometry) (m : MaterialProperties)
    (criterion : String) (w : List SimWarning)
    (hv : validate_thin_wall_assumption g 0.1 = .ok w)
    (hc : py_lower criterion = "yield" ∨ py_lower criterion = "ultimate") :
    ∃ SF, calculate_safety_factor P g m criterion = .ok (w ++ w, SF) := by
  unfold calculate_safety_factor
  rw [stress_state_ok_build P g w hv]
  simp only [Bind.bind, Except.bind]
  rcases hc with hc | hc
  · rw [if_pos hc]
    exact ⟨_, rfl⟩
  · rw [if_neg (by rw [hc]; decide), if_pos hc]
    exact ⟨_, rfl⟩

lemma safety_ok_warn (P : ℝ) (g : VesselGeometry) (m : MaterialProperties)
    (criterion : String) (w : List SimWarning) (SF : EReal)
    (h : calculate_safety_factor P g m criterion = .ok (w, SF)) :
    ∀ x ∈ w, x = SimWarning.marginalThinWall := by
  unfold calculate_safety_factor at h
  obtain ⟨⟨w0, ss⟩, hss, h2⟩ := except_bind_ok _ _ _ h
  dsimp only at h2
  have hw : w = w0 := by
    by_cases hy : py_lower criterion = "yield"
    · rw [if_pos hy] at h2
      simp only [Bind.bind, Except.bind, Pure.pure, Except.pure, Except.ok.injEq,
        Prod.mk.injEq] at h2
      exact h2.1.symm
    · rw [if_neg hy] at h2
      by_cases hu : py_lower criterion = "ultimate"
      · rw [if_pos hu] at h2
        simp only [Bind.bind, Except.bind, Pure.pure, Except.pure, Except.ok.injEq,
          Prod.mk.injEq] at h2
        exact h2.1.symm
      · rw [if_neg hu] at h2
        simp [Bind.bind, Except.bind] at h2
  subst hw
  obtain ⟨-, -, -, w', hv, hw0⟩ := stress_state_ok_val P g w ss hss
  subst hw0
  intro x hx
  rcases List.mem_append.mp hx with hx | hx <;>
    exact validate_ok_warn g 0.1 w' hv x hx

lemma dynamics_sample_parts (Pi Ti : ℝ → ℝ) (g : VesselGeometry)
    (m : MaterialProperties) (crit : String) (incdef : Bool) (V0 t : ℝ)
    (s : DynSample) (h : dynamics_sample Pi Ti g m crit incdef V0 t = .ok s) :
    s.t = t ∧ ∀ x ∈ s.warn, x = SimWarning.marginalThinWall := by
  unfold dynamics_sample at h
  obtain ⟨⟨w1, ss⟩, hss, h2⟩ := except_bind_ok _ _ _ h
  obtain ⟨⟨w2, SF⟩, hsf, h3⟩ := except_bind_ok _ _ _ h2
  simp only [Pure.pure, Except.pure, Except.ok.injEq] at h3
  subst h3
  refine ⟨rfl, ?_⟩
  intro x hx
  simp only at hx
  rcases List.mem_append.mp hx with hx | hx
  · obtain ⟨-, -, -, w', hv, hw1⟩ := stress_state_ok_val _ _ _ _ hss
    subst hw1
    rcases List.mem_append.mp hx with hx | hx <;>
      exact validate_ok_warn g 0.1 w' hv x hx
  · exact safety_ok_warn _ _ _ _ _ _ hsf x hx

lemma dynamics_sample_ok_exists (Pi Ti : ℝ → ℝ) (g : VesselGeometry)
    (m : MaterialProperties) (crit : String) (incdef : Bool) (V0 : ℝ)
    (wv : List SimWarning)
    (hv : validate_thin_wall_assumption g 0.1 = .ok wv)
    (hc : py_lower crit = "yield" ∨ py_lower crit = "ultimate") (t : ℝ) :
    ∃ s, dynamics_sample Pi Ti g m crit incdef V0 t = .ok s := by
  unfold dynamics_sample
  dsimp only
  rw [stress_state_ok_build (Pi t) g wv hv]
  simp only [Bind.bind, Except.bind]
  obtain ⟨SF, hSF⟩ := safety_ok_build (Pi t) g m crit wv hv hc
  rw [hSF]
  exact ⟨_, rfl⟩

lemma simulate_fields (cr : CombustionResult) (g : VesselGeometry)
    (m : MaterialProperties) (et : Option ℝ) (ms : ℝ) (crit : String)
    (incdef : Bool) (Pi Ti : ℝ → ℝ) (ev : Option ℝ)
    (w : List SimWarning) (state : SystemState)
    (h : simulate_system_dynamics cr g m et ms crit incdef Pi Ti ev = .ok (w, state)) :
    state.failed = ev.isSome ∧ state.failure_time = ev ∧
    state.failure_mode = (if ev.isSome then some "Yield exceeded" else none) ∧
    ∃ samples, exceptMapList (dynamics_sample Pi Ti g m crit incdef
        (g.inner_diameter ^ 2 * Real.pi / 4 * (g.length.getD 0.3)))
        (tracker_time_array cr et ms ev) = .ok samples ∧
      state.time = samples.map (fun s => s.t) ∧
      w = (if g.length = none then [SimWarning.lengthMissing] else []) ++
        (samples.map (fun s => s.warn)).flatten := by
  unfold simulate_system_dynamics at h
  obtain ⟨samples, hsm, h2⟩ := except_bind_ok _ _ _ h
  simp only [Pure.pure, Except.pure, Except.ok.injEq, Prod.mk.injEq] at h2
  obtain ⟨hw, hstate⟩ := h2
  subst hstate
  exact ⟨rfl, rfl, rfl, samples, hsm, rfl, hw.symm⟩

lemma simulate_ok_exists (cr : CombustionResult) (g : VesselGeometry)
    (m : MaterialProperties) (et : Option ℝ) (ms : ℝ) (crit : String)
    (incdef : Bool) (Pi Ti : ℝ → ℝ) (ev : Option ℝ) (wv : List SimWarning)
    (hv : validate_thin_wall_assumption g 0.1 = .ok wv)
    (hc : py_lower crit = "yield" ∨ py_lower crit = "ultimate") :
    ∃ w state,
      simulate_system_dynamics cr g m et ms crit incdef Pi Ti ev = .ok (w, state) := by
  unfold simulate_system_dynamics
  dsimp only
  obtain ⟨samples, hsm⟩ := exceptMapList_ok_exists
    (dynamics_sample Pi Ti g m crit incdef
      (g.inner_diameter ^ 2 * Real.pi / 4 * (g.length.getD 0.3)))
    (tracker_time_array cr et ms ev)
    (fun t _ => dynamics_sample_ok_exists Pi Ti g m crit incdef _ wv hv hc t)
  rw [hsm]
  simp only [Bind.bind, Except.bind]
  exact ⟨_, _, rfl⟩

lemma simulate_warn_kinds (cr : CombustionResult) (g : VesselGeometry)
    (m : MaterialProperties) (et : Option ℝ) (ms : ℝ) (crit : String)
    (incdef : Bool) (Pi Ti : ℝ → ℝ) (ev : Option ℝ)
    (w : List SimWarning) (state : SystemState)
    (h : simulate_system_dynamics cr g m et ms crit incdef Pi Ti ev = .ok (w, state)) :
    ∀ x ∈ w, x = SimWarning.marginalThinWall ∨ x = SimWarning.lengthMissing := by
  obtain ⟨-, -, -, samples, hsm, -, hw⟩ :=
    simulate_fields cr g m et ms crit incdef Pi Ti ev w state h
  subst hw
  intro x hx
  rcases List.mem_append.mp hx with h1 | h1
  · by_cases hl : g.length = none
    · rw [if_pos hl] at h1
      right
      simpa using h1
    · rw [if_neg hl] at h1
      simp at h1
  · left
    rw [List.mem_flatten] at h1
    obtain ⟨ws, hws, hxw⟩ := h1
    rw [List.mem_map] at hws
    obtain ⟨smp, hsmp, rfl⟩ := hws
    obtain ⟨t, -, hft⟩ := exceptMapList_ok_forall _ _ _ hsm smp hsmp
    exact (dynamics_sample_parts _ _ _ _ _ _ _ _ _ hft).2 _ hxw

/-- C5 (amended): for every run of the failure tracker in which the
external event solver reports a failure crossing at time tstar, the
recorded failure time is tstar, no retained time sample exceeds tstar,
and the recorded failure mode is always the fixed string
"Yield exceeded", regardless of the configured failure criterion. -/
theorem tracker_failure_record (cr : CombustionResult) (g : VesselGeometry)
    (m : MaterialProperties) (et : Option ℝ) (ms : ℝ) (crit : String)
    (incdef : Bool) (Pi Ti : ℝ → ℝ) (tstar : ℝ)
    (w : List SimWarning) (state : SystemState)
    (h : simulate_system_dynamics cr g m et ms crit incdef Pi Ti (some tstar) =
      .ok (w, state)) :
    state.failed = true ∧ state.failure_time = some tstar ∧
    state.failure_mode = some "Yield exceeded" ∧
    ∀ t ∈ state.time, t ≤ tstar := by
  obtain ⟨hf, hft, hfm, samples, hsm, htime, -⟩ :=
    simulate_fields cr g m et ms crit incdef Pi Ti (some tstar) w state h
  refine ⟨hf, hft, hfm.trans (by rfl), ?_⟩
  intro t ht
  rw [htime] at ht
  have hmap := exceptMapList_ok_map _ (fun s => s.t) _ _ hsm
    (fun x y hx => (dynamics_sample_parts _ _ _ _ _ _ _ x y hx).1)
  rw [hmap] at ht
  unfold tracker_time_array at ht
  rcases List.mem_append.mp ht with hf2 | hl
  · exact of_decide_eq_true (List.mem_filter.mp hf2).2
  · rw [List.mem_singleton] at hl
    exact le_of_eq hl

/-- Witness for C5 on a concrete run: event at t = 1/2 on the bottle
geometry with the yield criterion. -/
theorem tracker_failure_record_witness :
    (simulate_system_dynamics cr0 geom0 PET (some 1) 1 "yield" false
        Pconst Tconst (some (1/2))).map
      (fun r => (r.2.failed, r.2.failure_time, r.2.failure_mode)) =
    .ok (true, some (1/2), some "Yield exceeded") := by
  have hv : validate_thin_wall_assumption geom0 0.1 = .ok [] := by
    simp only [validate_thin_wall_assumption, geom0]
    norm_num
  obtain ⟨w, st, h⟩ := simulate_ok_exists cr0 geom0 PET (some 1) 1 "yield" false
    Pconst Tconst (some (1/2)) [] hv (Or.inl (by decide))
  rw [h]
  simp only [Except.map]
  have thm := tracker_failure_record cr0 geom0 PET (some 1) 1 "yield" false
    Pconst Tconst (1/2) w st h
  rw [thm.1, thm.2.1, thm.2.2.1]

/-- Counterexample for C5 as stated: with the ultimate criterion
configured, a detected failure is still recorded with mode
"Yield exceeded", not "ultimate exceeded". -/
theorem tracker_failure_mode_cx :
    (simulate_system_dynamics cr0 geom0 PET (some 1) 1 "ultimate" false
        Pconst Tconst (some (1/2))).map
      (fun r => (r.2.failed, r.2.failure_mode)) =
    .ok (true, some "Yield exceeded") ∧
    (some "Yield exceeded" : Option String) ≠ some "ultimate exceeded" := by
  constructor
  · have hv : validate_thin_wall_assumption geom0 0.1 = .ok [] := by
      simp only [validate_thin_wall_assumption, geom0]
      norm_num
    obtain ⟨w, st, h⟩ := simulate_ok_exists cr0 geom0 PET (some 1) 1 "ultimate" false
      Pconst Tconst (some (1/2)) [] hv (Or.inr (by decide))
    rw [h]
    simp only [Except.map]
    obtain ⟨h1, -, h3, -⟩ := simulate_fields cr0 geom0 PET (some 1) 1 "ultimate" false
      Pconst Tconst (some (1/2)) w st h
    rw [h1, h3]
    rfl
  · decide

/-- C7 (amended): the failure tracker never emits an extrapolation
warning — out-of-domain interpolant queries proceed silently with the
extrapolated value (the run still returns normally), in every run. -/
theorem tracker_no_extrapolation_warning (cr : CombustionResult)
    (g : VesselGeometry) (m : MaterialProperties) (et : Option ℝ) (ms : ℝ)
    (crit : String) (incdef : Bool) (Pi Ti : ℝ → ℝ) (ev : Option ℝ)
    (w : List SimWarning) (state : SystemState)
    (h : simulate_system_dynamics cr g m et ms crit incdef Pi Ti ev = .ok (w, state)) :
    SimWarning.extrapolationBeyondDomain ∉ w := by
  intro hmem
  rcases simulate_warn_kinds cr g m et ms crit incdef Pi Ti ev w state h _ hmem with
    h1 | h1 <;> exact absurd h1 (by decide)

/-- Witness for C7 on a concrete successful run. -/
theorem tracker_no_extrapolation_warning_witness :
    (simulate_system_dynamics cr0 geom0 PET (some 1) 1 "yield" false
        Pconst Tconst none).map
      (fun r => decide (SimWarning.extrapolationBeyondDomain ∈ r.1)) = .ok false := by
  have hv : validate_thin_wall_assumption geom0 0.1 = .ok [] := by
    simp only [validate_thin_wall_assumption, geom0]
    norm_num
  obtain ⟨w, st, h⟩ := simulate_ok_exists cr0 geom0 PET (some 1) 1 "yield" false
    Pconst Tconst none [] hv (Or.inl (by decide))
  rw [h]
  simp only [Except.map]
  rw [decide_eq_false (tracker_no_extrapolation_warning cr0 geom0 PET (some 1) 1
    "yield" false Pconst Tconst none w st h)]

/-- Counterexample for C7 as stated: the combustion series of `cr0` ends
at t = 1/2, yet the run with end time 1 retains the sample t = 1 — an
out-of-domain interpolant query — returns normally, and records no
extrapolation warning at all. -/
theorem tracker_silent_extrapolation_cx :
    cr0.time.getLastD 0 = 1/2 ∧ (1:ℝ) > 1/2 ∧
    (simulate_system_dynamics cr0 geom0 PET (some 1) (1/2) "yield" false
        Pconst Tconst none).map
      (fun r => (decide ((1:ℝ) ∈ r.2.time),
        decide (SimWarning.extrapolationBeyondDomain ∈ r.1))) =
    .ok (true, false) := by
  refine ⟨by simp [cr0], by norm_num, ?_⟩
  have hv : validate_thin_wall_assumption geom0 0.1 = .ok [] := by
    simp only [validate_thin_wall_assumption, geom0]
    norm_num
  obtain ⟨w, st, h⟩ := simulate_ok_exists cr0 geom0 PET (some 1) (1/2) "yield" false
    Pconst Tconst none [] hv (Or.inl (by decide))
  rw [h]
  simp only [Except.map]
  obtain ⟨-, -, -, samples, hsm, htime, -⟩ :=
    simulate_fields cr0 geom0 PET (some 1) (1/2) "yield" false Pconst Tconst none w st h
  have hmap := exceptMapList_ok_map _ (fun s => s.t) _ _ hsm
    (fun x y hx => (dynamics_sample_parts _ _ _ _ _ _ _ x y hx).1)
  have hta : tracker_time_array cr0 (some 1) (1/2) none = [0, 1] := by
    unfold tracker_time_array tracker_grid
    have hfl : Nat.floor ((some (1:ℝ)).getD (cr0.time.getLastD 0) / (1/2)) = 2 := by
      norm_num
    rw [hfl]
    have hr2 : List.range 2 = [0, 1] := by decide
    simp only [linspace, hr2, List.map_cons, List.map_nil, Option.getD_some]
    norm_num
  have htv : st.time = [0, 1] := by rw [htime, hmap, hta]
  have hmem : (1:ℝ) ∈ st.time := by rw [htv]; simp
  have hnot : SimWarning.extrapolationBeyondDomain ∉ w := by
    intro hmem2
    rcases simulate_warn_kinds cr0 geom0 PET (some 1) (1/2) "yield" false
      Pconst Tconst none w st h _ hmem2 with h1 | h1 <;> exact absurd h1 (by decide)
  rw [decide_eq_true hmem, decide_eq_false hnot]

/-- C4: for every completed run of the orchestrator, the
concentration-adjusted safety factor is the material yield strength over
the concentration-adjusted maximum stress, the overall failed verdict is
(dynamic failure detected) OR (that safety factor below 1), the summary
minimum safety factor is the minimum over the dynamic series, the safety
margin is the minimum of the dynamic minimum safety factor and the
concentration-adjusted safety factor, and a warning is appended for each
of: thickness ratio above 0.05, flat cap selected, threads included,
safety margin below 2.0. -/
theorem orchestrator_aggregation (config : FullSimulationConfig)
    (cr : CombustionResult) (Pi Ti : ℝ → ℝ) (ev : Option ℝ)
    (result : FullSimulationResult) (material : MaterialProperties)
    (hm : get_material config.vessel_material = .ok material)
    (h : run_complete_simulation config cr Pi Ti ev = .ok result) :
    result.summary.safety_factor_with_concentration =
      material.yield_strength / result.fem_analysis.stress_concentrations.sigma_max ∧
    result.failed = (result.system.failed ||
      decide (result.summary.safety_factor_with_concentration < 1.0)) ∧
    result.summary.min_safety_factor = listMinD result.system.safety_factor ∧
    result.safety_margin = min result.summary.min_safety_factor
      ((result.summary.safety_factor_with_concentration : ℝ) : EReal) ∧
    (result.fem_analysis.thick_vs_thin.thickness_over_diameter > 0.05 →
      warn_thick_wall ∈ result.warnings) ∧
    (config.cap_type = "flat" → warn_flat_cap ∈ result.warnings) ∧
    (config.include_threads = true → warn_threads ∈ result.warnings) ∧
    (result.safety_margin < (2 : EReal) → warn_low_margin ∈ result.warnings) := by
  unfold run_complete_simulation at h
  obtain ⟨⟨w2, comb, sysres⟩, hrun, h⟩ := except_bind_ok _ _ _ h
  dsimp only at h
  obtain ⟨mat2, hm2, h⟩ := except_bind_ok _ _ _ h
  have hmm : mat2 = material := Except.ok.inj (hm2.symm.trans hm)
  subst hmm
  obtain ⟨⟨wc, comparison⟩, hcmp, h⟩ := except_bind_ok _ _ _ h
  obtain ⟨⟨wscr, scr⟩, hscr, h⟩ := except_bind_ok _ _ _ h
  obtain ⟨⟨wf, floc⟩, hfl, h⟩ := except_bind_ok _ _ _ h
  simp only [Pure.pure, Except.pure, Except.ok.injEq] at h
  subst h
  refine ⟨rfl, rfl, rfl, rfl, ?_, ?_, ?_, ?_⟩
  · intro hcond
    simp only
    rw [if_pos hcond]
    simp [List.mem_append]
  · intro hcond
    simp only
    rw [if_pos hcond]
    simp [List.mem_append]
  · intro hcond
    simp only
    rw [if_pos hcond]
    simp [List.mem_append]
  · intro hcond
    simp only
    rw [if_pos hcond]
    simp [List.mem_append]

lemma get_material_PET : get_material "PET" = .ok PET := rfl

lemma compare_ok_exists (g : VesselGeometry) (P : ℝ) (m : MaterialProperties)
    (wv : List SimWarning)
    (hv : validate_thin_wall_assumption g 0.1 = .ok wv) :
    ∃ wc cc, compare_thick_vs_thin_wall g P m = .ok (wc, cc) := by
  unfold compare_thick_vs_thin_wall
  dsimp only
  rw [hoop_ok_of_validate P g wv hv]
  simp only [Bind.bind, Except.bind]
  exact ⟨_, _, rfl⟩

lemma estimate_ok_exists (P : ℝ) (g : VesselGeometry) (cap : String)
    (wc : List SimWarning) (K : ℝ)
    (hcap : calculate_end_cap_stress_factor g cap = .ok (wc, K)) :
    ∃ w floc, estimate_failure_location P g cap = .ok (w, floc) := by
  unfold estimate_failure_location
  rw [hcap]
  simp only [Bind.bind, Except.bind]
  exact ⟨_, _, rfl⟩

lemma run_full_ok_exists (config : SimulationConfig) (cr : CombustionResult)
    (Pi Ti : ℝ → ℝ) (ev : Option ℝ) (mm : MaterialProperties)
    (wv : List SimWarning)
    (hm : get_material config.vessel_material = .ok mm)
    (hv : validate_thin_wall_assumption
      ⟨config.vessel_diameter, config.vessel_thickness, some config.vessel_length⟩
      0.1 = .ok wv)
    (hc : py_lower config.failure_criterion = "yield" ∨
      py_lower config.failure_criterion = "ultimate") :
    ∃ w c st, run_full_simulation config cr Pi Ti ev = .ok (w, c, st) := by
  unfold run_full_simulation
  dsimp only
  rw [hm]
  simp only [Bind.bind, Except.bind]
  unfold predict_failure_pressure
  rw [burst_ok_of_validate _ mm _ _ wv hv]
  simp only [Bind.bind, Except.bind]
  obtain ⟨w2, st, hsim⟩ := simulate_ok_exists cr
    ⟨config.vessel_diameter, config.vessel_thickness, some config.vessel_length⟩
    mm (some (config.system_time.getD config.combustion_time)) config.max_step
    config.failure_criterion false Pi Ti ev wv hv hc
  rw [hsim]
  simp only [Bind.bind, Except.bind]
  exact ⟨_, _, _, rfl⟩

lemma run_complete_ok_exists (config : FullSimulationConfig)
    (cr : CombustionResult) (Pi Ti : ℝ → ℝ) (ev : Option ℝ)
    (mm : MaterialProperties) (wv wcap : List SimWarning) (Kcap : ℝ)
    (hm : get_material config.vessel_material = .ok mm)
    (hv : validate_thin_wall_assumption
      ⟨config.vessel_diameter, config.vessel_thickness, some config.vessel_length⟩
      0.1 = .ok wv)
    (hcap : calculate_end_cap_stress_factor
      ⟨config.vessel_diameter, config.vessel_thickness, some config.vessel_length⟩
      config.cap_type = .ok (wcap, Kcap))
    (hc : py_lower config.failure_criterion = "yield" ∨
      py_lower config.failure_criterion = "ultimate") :
    ∃ res, run_complete_simulation config cr Pi Ti ev = .ok res := by
  unfold run_complete_simulation
  dsimp only
  obtain ⟨w, c, st, hrf⟩ := run_full_ok_exists
    { vessel_volume := config.volume
      fuel_oxidizer := config.fuel_oxidizer
      initial_temperature := config.initial_temperature
      initial_pressure := config.initial_pressure
      vessel_diameter := config.vessel_diameter
      vessel_thickness := config.vessel_thickness
      vessel_length := config.vessel_length
      vessel_material := config.vessel_material
      combustion_time := config.combustion_time
      system_time := none
      max_step := config.max_step
      failure_criterion := config.failure_criterion } cr Pi Ti ev mm wv hm hv hc
  rw [hrf]
  simp only [Bind.bind, Except.bind]
  rw [hm]
  simp only [Bind.bind, Except.bind]
  obtain ⟨wc, cc, hcmp⟩ := compare_ok_exists
    ⟨config.vessel_diameter, config.vessel_thickness, some config.vessel_length⟩
    (listMaxD st.pressure) mm wv hv
  rw [hcmp]
  simp only [Bind.bind, Except.bind]
  obtain ⟨r, hscr⟩ := max_stress_ok_build (listMaxD st.pressure)
    ⟨config.vessel_diameter, config.vessel_thickness, some config.vessel_length⟩
    mm config.cap_type config.include_threads config.include_transition
    _ _ _ _ (stress_state_ok_build _ _ wv hv) hcap
  rw [hscr]
  simp only [Bind.bind, Except.bind]
  obtain ⟨wf, floc, hfl⟩ := estimate_ok_exists (listMaxD st.pressure)
    ⟨config.vessel_diameter, config.vessel_thickness, some config.vessel_length⟩
    config.cap_type wcap Kcap hcap
  rw [hfl]
  simp only [Bind.bind, Except.bind]
  exact ⟨_, rfl⟩

/-- Witness for C4: the aggregation identities instantiated on the
concrete run `result0`. -/
theorem orchestrator_aggregation_witness :
    result0.summary.safety_factor_with_concentration =
      PET.yield_strength / result0.fem_analysis.stress_concentrations.sigma_max ∧
    result0.failed = (result0.system.failed ||
      decide (result0.summary.safety_factor_with_concentration < 1.0)) ∧
    result0.safety_margin = min result0.summary.min_safety_factor
      ((result0.summary.safety_factor_with_concentration : ℝ) : EReal) := by
  have hv : validate_thin_wall_assumption
      ⟨config0.vessel_diameter, config0.vessel_thickness, some config0.vessel_length⟩
      0.1 = .ok [] := by
    simp only [validate_thin_wall_assumption, config0]
    norm_num
  obtain ⟨res, hres⟩ := run_complete_ok_exists config0 cr0 Pconst Tconst none
    PET [] [] 1.0 get_material_PET hv (cap_factor_hemispherical _)
    (Or.inl (by decide))
  have h0 : run_complete_simulation config0 cr0 Pconst Tconst none = .ok result0 := by
    unfold result0
    rw [hres]
    rfl
  have thm := orchestrator_aggregation config0 cr0 Pconst Tconst none result0 PET
    get_material_PET h0
  exact ⟨thm.1, thm.2.1, thm.2.2.2.1⟩

end RocketSim
